import Mathlib

/-!
RenderingStatus: versioned state tracking

A shallow embedding of `RenderingContext/internal/RenderingStatus.h` of the
Rendering library, followed by theorems about it.

Conventions of the embedding.

* `uint32_t` check numbers are `Nat` fields; `++n` is `(n + 1) % 2^32`.
* `std::bitset<MAX_LIGHTS>` is `Fin MAX_LIGHTS → Bool`, the array
  `LightParameters lights[MAX_LIGHTS]` is `Fin MAX_LIGHTS → L`.
* `std::vector<TexUnitUsageParameter>` is `List T`.
* The matrix type and the parameter records come from headers outside this
  file (`Geometry/Matrix4x4.h`, `RenderingParameters.h`); they are type
  parameters `M`, `L`, `MP`, `PP`, `T`. Their `==` / `!=` operators are taken
  to be value equality, as the design notes of the library require.
* A failed `assert`, or a read outside a `bitset` or an array (undefined
  behaviour in C++), is the result `none`.
* `std::vector::at` throwing `std::out_of_range` is `Except.error`, carrying
  the status the call leaves behind.
* A copy of a status (copy construction) is the same Lean value.
-/

namespace Rendering

/-- Operations of the external type `Geometry::Matrix4x4f` used by the status:
the default-constructed matrix, `operator*=` and `inverse()`. -/
class Matrix4x4 (M : Type) where
  identity : M
  mul : M → M → M
  inverse : M → M

/-- The enumeration `TexUnitUsageParameter` of `RenderingParameters.h`; only its
value `GENERAL_PURPOSE` is named in `RenderingStatus.h`. -/
class TexUnitUsage (T : Type) where
  GENERAL_PURPOSE : T

/-- The constant `static const uint8_t MAX_LIGHTS = 8;`. -/
abbrev MAX_LIGHTS : Nat := 8

/-- The class `RenderingStatus`, field by field. -/
structure RenderingStatus (M L MP PP T : Type) where
  shader : Option Nat
  initialized : Bool
  cameraCheckNumber : Nat
  cameraMatrix : M
  cameraInverseMatrix : M
  lightsCheckNumber : Nat
  lights : Fin MAX_LIGHTS → L
  lightsEnabled : Fin MAX_LIGHTS → Bool
  materialCheckNumber : Nat
  materialEnabled : Bool
  material : MP
  modelViewMatrixCheckNumber : Nat
  modelViewMatrix : M
  pointParameters : PP
  projectionMatrixCheckNumber : Nat
  projectionMatrix : M
  textureUnitUsagesCheckNumber : Nat
  textureUnitUsages : List T

namespace RenderingStatus

variable {M L MP PP T : Type}

/-- The constructor `RenderingStatus(Shader * _shader = nullptr)`. The constant
`MAX_TEXTURES` is declared in `RenderingParameters.h` and is a parameter here. -/
def new [Matrix4x4 M] [Inhabited L] [Inhabited MP] [Inhabited PP] [TexUnitUsage T]
    (MAX_TEXTURES : Nat) (shader : Option Nat) : RenderingStatus M L MP PP T where
  shader := shader
  initialized := false
  cameraCheckNumber := 0
  cameraMatrix := Matrix4x4.identity
  cameraInverseMatrix := Matrix4x4.identity
  lightsCheckNumber := 0
  lights := fun _ => default
  lightsEnabled := fun _ => false
  materialCheckNumber := 0
  materialEnabled := false
  material := default
  modelViewMatrixCheckNumber := 0
  modelViewMatrix := Matrix4x4.identity
  pointParameters := default
  projectionMatrixCheckNumber := 0
  projectionMatrix := Matrix4x4.identity
  textureUnitUsagesCheckNumber := 0
  textureUnitUsages := List.replicate MAX_TEXTURES TexUnitUsage.GENERAL_PURPOSE

/-! ### General -/

def getShader (s : RenderingStatus M L MP PP T) : Option Nat :=
  s.shader

def isInitialized (s : RenderingStatus M L MP PP T) : Bool :=
  s.initialized

def markInitialized (s : RenderingStatus M L MP PP T) : RenderingStatus M L MP PP T :=
  { s with initialized := true }

/-! ### Camera matrix -/

def cameraInverseMatrixChanged [DecidableEq M]
    (s actual : RenderingStatus M L MP PP T) : Bool :=
  if s.cameraCheckNumber = actual.cameraCheckNumber then false
  else decide (s.cameraInverseMatrix ≠ actual.cameraInverseMatrix)

def getCameraInverseMatrix (s : RenderingStatus M L MP PP T) : M :=
  s.cameraInverseMatrix

def getCameraMatrix (s : RenderingStatus M L MP PP T) : M :=
  s.cameraMatrix

def setCameraInverseMatrix [Matrix4x4 M] (s : RenderingStatus M L MP PP T) (matrix : M) :
    RenderingStatus M L MP PP T :=
  { s with
    cameraInverseMatrix := matrix
    cameraMatrix := Matrix4x4.inverse matrix
    cameraCheckNumber := (s.cameraCheckNumber + 1) % 2 ^ 32 }

def updateCameraMatrix (s actual : RenderingStatus M L MP PP T) :
    RenderingStatus M L MP PP T :=
  { s with
    cameraInverseMatrix := actual.cameraInverseMatrix
    cameraMatrix := actual.cameraMatrix
    cameraCheckNumber := actual.cameraCheckNumber }

/-! ### Lights -/

/-- The value of `lightsEnabled.count()` restricted to the slots below `n`. -/
def countBelow (enabled : Fin MAX_LIGHTS → Bool) : Nat → Nat
  | 0 => 0
  | n + 1 =>
    countBelow enabled n +
      (if h : n < MAX_LIGHTS then (if enabled ⟨n, h⟩ then 1 else 0) else 0)

/-- Return the number of lights that are currently enabled. -/
def getNumEnabledLights (s : RenderingStatus M L MP PP T) : Nat :=
  countBelow s.lightsEnabled MAX_LIGHTS

/-- The loop `while(lightsEnabled[pos] != stop) ++pos;` started at `pos`. It
reads slot `pos`, then `pos + 1`, ...; a read at a position `≥ MAX_LIGHTS` is
out of range. `fuel` bounds the number of reads; `MAX_LIGHTS + 1` reads always
suffice, since the read at position `MAX_LIGHTS` is already out of range. -/
def scanUntil (enabled : Fin MAX_LIGHTS → Bool) (stop : Bool) : Nat → Nat → Option Nat
  | 0, _ => none
  | fuel + 1, pos =>
    if h : pos < MAX_LIGHTS then
      if enabled ⟨pos, h⟩ = stop then some pos else scanUntil enabled stop fuel (pos + 1)
    else none

/-- The loop `while(index > 0) { while(!lightsEnabled[pos]) ++pos; --index; ++pos; }`
of `getEnabledLight`, returning the final `pos`. -/
def advanceEnabled (enabled : Fin MAX_LIGHTS → Bool) : Nat → Nat → Option Nat
  | 0, pos => some pos
  | index + 1, pos =>
    match scanUntil enabled true (MAX_LIGHTS + 1) pos with
    | none => none
    | some pos1 => advanceEnabled enabled index (pos1 + 1)

/-- The position `pos` at which `getEnabledLight(index)` reads `lights[pos]`
(both loops of the function, without the final array read). -/
def enabledLightPos (enabled : Fin MAX_LIGHTS → Bool) (index : Nat) : Option Nat :=
  match scanUntil enabled true (MAX_LIGHTS + 1) 0 with
  | none => none
  | some pos => advanceEnabled enabled index pos

/-- The array read `lights[pos]`. -/
def lightAt (s : RenderingStatus M L MP PP T) (pos : Nat) : Option L :=
  if h : pos < MAX_LIGHTS then some (s.lights ⟨pos, h⟩) else none

/-- Of the lights that are enabled, return the one with the given index. -/
def getEnabledLight (s : RenderingStatus M L MP PP T) (index : Nat) : Option L :=
  if index < s.getNumEnabledLights then
    match enabledLightPos s.lightsEnabled index with
    | none => none
    | some pos => s.lightAt pos
  else none

/-- Enable the light given by its parameters. Return the number that can be used
to disable it. -/
def enableLight (s : RenderingStatus M L MP PP T) (light : L) :
    Option (RenderingStatus M L MP PP T × Nat) :=
  if s.getNumEnabledLights < MAX_LIGHTS then
    match scanUntil s.lightsEnabled false (MAX_LIGHTS + 1) 0 with
    | none => none
    | some pos =>
      if h : pos < MAX_LIGHTS then
        some ({ s with
                lightsCheckNumber := (s.lightsCheckNumber + 1) % 2 ^ 32
                lights := Function.update s.lights ⟨pos, h⟩ light
                lightsEnabled := Function.update s.lightsEnabled ⟨pos, h⟩ true }, pos)
      else none
  else none

/-- Return `true`, if the light with the given light number is enabled. -/
def isLightEnabled (s : RenderingStatus M L MP PP T) (lightNumber : Nat) : Option Bool :=
  if h : lightNumber < MAX_LIGHTS then some (s.lightsEnabled ⟨lightNumber, h⟩) else none

/-- Disable the light with the given number. -/
def disableLight (s : RenderingStatus M L MP PP T) (lightNumber : Nat) :
    Option (RenderingStatus M L MP PP T) :=
  if h : lightNumber < MAX_LIGHTS then
    if s.lightsEnabled ⟨lightNumber, h⟩ then
      some { s with
             lightsCheckNumber := (s.lightsCheckNumber + 1) % 2 ^ 32
             lightsEnabled := Function.update s.lightsEnabled ⟨lightNumber, h⟩ false }
    else none
  else none

/-- The loop `for (i = 0; i < getNumEnabledLights(); ++i)` of `lightsChanged`,
from index `i` on, with `remaining` iterations left. -/
def lightsChangedLoop [DecidableEq L] (s actual : RenderingStatus M L MP PP T) :
    Nat → Nat → Option Bool
  | 0, _ => some false
  | remaining + 1, i =>
    match s.getEnabledLight i, actual.getEnabledLight i with
    | some a, some b => if a ≠ b then some true else lightsChangedLoop s actual remaining (i + 1)
    | _, _ => none

def lightsChanged [DecidableEq L] (s actual : RenderingStatus M L MP PP T) : Option Bool :=
  if s.lightsCheckNumber = actual.lightsCheckNumber then some false
  else if s.lightsEnabled ≠ actual.lightsEnabled then some true
  else lightsChangedLoop s actual s.getNumEnabledLights 0

def updateLights (s actual : RenderingStatus M L MP PP T) : RenderingStatus M L MP PP T :=
  { s with
    lightsEnabled := actual.lightsEnabled
    lightsCheckNumber := actual.lightsCheckNumber }

def updateLightParameter (s : RenderingStatus M L MP PP T) (lightNumber : Nat) (light : L) :
    Option (RenderingStatus M L MP PP T) :=
  if h : lightNumber < MAX_LIGHTS then
    some { s with lights := Function.update s.lights ⟨lightNumber, h⟩ light }
  else none

/-! ### Materials -/

def isMaterialEnabled (s : RenderingStatus M L MP PP T) : Bool :=
  s.materialEnabled

def getMaterialParameters (s : RenderingStatus M L MP PP T) : MP :=
  s.material

def materialChanged [DecidableEq MP] (s actual : RenderingStatus M L MP PP T) : Bool :=
  if s.materialCheckNumber = actual.materialCheckNumber then false
  else decide (s.materialEnabled ≠ actual.materialEnabled) || decide (s.material ≠ actual.material)

def setMaterial (s : RenderingStatus M L MP PP T) (mat : MP) : RenderingStatus M L MP PP T :=
  { s with
    material := mat
    materialEnabled := true
    materialCheckNumber := (s.materialCheckNumber + 1) % 2 ^ 32 }

def updateMaterial (s actual : RenderingStatus M L MP PP T) : RenderingStatus M L MP PP T :=
  { s with
    materialEnabled := actual.materialEnabled
    material := actual.material
    materialCheckNumber := actual.materialCheckNumber }

def disableMaterial (s : RenderingStatus M L MP PP T) : RenderingStatus M L MP PP T :=
  { s with
    materialEnabled := false
    materialCheckNumber := (s.materialCheckNumber + 1) % 2 ^ 32 }

/-! ### Modelview matrix -/

def getModelViewMatrix (s : RenderingStatus M L MP PP T) : M :=
  s.modelViewMatrix

def setModelViewMatrix (s : RenderingStatus M L MP PP T) (matrix : M) :
    RenderingStatus M L MP PP T :=
  { s with
    modelViewMatrix := matrix
    modelViewMatrixCheckNumber := (s.modelViewMatrixCheckNumber + 1) % 2 ^ 32 }

def modelViewMatrixChanged [DecidableEq M] (s actual : RenderingStatus M L MP PP T) : Bool :=
  if s.modelViewMatrixCheckNumber = actual.modelViewMatrixCheckNumber then false
  else decide (s.modelViewMatrix ≠ actual.modelViewMatrix)

def multModelViewMatrix [Matrix4x4 M] (s : RenderingStatus M L MP PP T) (matrix : M) :
    RenderingStatus M L MP PP T :=
  { s with
    modelViewMatrix := Matrix4x4.mul s.modelViewMatrix matrix
    modelViewMatrixCheckNumber := (s.modelViewMatrixCheckNumber + 1) % 2 ^ 32 }

def updateModelViewMatrix (s actual : RenderingStatus M L MP PP T) :
    RenderingStatus M L MP PP T :=
  { s with
    modelViewMatrix := actual.modelViewMatrix
    modelViewMatrixCheckNumber := actual.modelViewMatrixCheckNumber }

/-! ### Point -/

def pointParametersChanged [DecidableEq PP] (s actual : RenderingStatus M L MP PP T) : Bool :=
  decide (s.pointParameters ≠ actual.pointParameters)

def getPointParameters (s : RenderingStatus M L MP PP T) : PP :=
  s.pointParameters

def setPointParameters (s : RenderingStatus M L MP PP T) (p : PP) :
    RenderingStatus M L MP PP T :=
  { s with pointParameters := p }

/-! ### Projection matrix -/

def setProjectionMatrix (s : RenderingStatus M L MP PP T) (matrix : M) :
    RenderingStatus M L MP PP T :=
  { s with
    projectionMatrix := matrix
    projectionMatrixCheckNumber := (s.projectionMatrixCheckNumber + 1) % 2 ^ 32 }

def getProjectionMatrix (s : RenderingStatus M L MP PP T) : M :=
  s.projectionMatrix

def updateProjectionMatrix (s actual : RenderingStatus M L MP PP T) :
    RenderingStatus M L MP PP T :=
  { s with
    projectionMatrix := actual.projectionMatrix
    projectionMatrixCheckNumber := actual.projectionMatrixCheckNumber }

def projectionMatrixChanged [DecidableEq M] (s actual : RenderingStatus M L MP PP T) : Bool :=
  if s.projectionMatrixCheckNumber = actual.projectionMatrixCheckNumber then false
  else decide (s.projectionMatrix ≠ actual.projectionMatrix)

/-! ### Texture units -/

/-- The method `setTextureUnitUsage`. The check number is incremented first; then
`textureUnitUsages.at(unit)` throws when `unit` is not below the size of the
vector, which leaves the status with the incremented check number behind. -/
def setTextureUnitUsage (s : RenderingStatus M L MP PP T) (unit : Nat) (use : T) :
    Except (RenderingStatus M L MP PP T) (RenderingStatus M L MP PP T) :=
  let s1 := { s with
              textureUnitUsagesCheckNumber := (s.textureUnitUsagesCheckNumber + 1) % 2 ^ 32 }
  if unit < s1.textureUnitUsages.length then
    Except.ok { s1 with textureUnitUsages := s1.textureUnitUsages.set unit use }
  else Except.error s1

/-- The method `getTextureUnitUsage`: `textureUnitUsages.at(unit)`, which throws
when `unit` is out of range (`none`; the method is `const`). -/
def getTextureUnitUsage (s : RenderingStatus M L MP PP T) (unit : Nat) : Option T :=
  s.textureUnitUsages.get? unit

def textureUnitsChanged [DecidableEq T] (s actual : RenderingStatus M L MP PP T) : Bool :=
  if s.textureUnitUsagesCheckNumber = actual.textureUnitUsagesCheckNumber then false
  else decide (s.textureUnitUsages ≠ actual.textureUnitUsages)

def updateTextureUnits (s actual : RenderingStatus M L MP PP T) :
    RenderingStatus M L MP PP T :=
  { s with
    textureUnitUsages := actual.textureUnitUsages
    textureUnitUsagesCheckNumber := actual.textureUnitUsagesCheckNumber }

end RenderingStatus

/-! ## Sequences of setter calls

A finite sequence of calls of the setters of one group, applied in order to one
status. -/

/-- A call of `setMaterial(mat)` or of `disableMaterial()`. -/
inductive MaterialCall (MP : Type) where
  | setMaterial (mat : MP)
  | disableMaterial

/-- A call of `setModelViewMatrix(matrix)` or of `multModelViewMatrix(matrix)`. -/
inductive ModelViewCall (M : Type) where
  | setModelViewMatrix (matrix : M)
  | multModelViewMatrix (matrix : M)

/-- A call of `enableLight(light)` or of `disableLight(lightNumber)`. -/
inductive LightCall (L : Type) where
  | enableLight (light : L)
  | disableLight (lightNumber : Nat)

namespace RenderingStatus

variable {M L MP PP T : Type}

/-- Calls `setCameraInverseMatrix(m)` for each `m` of the list, in order. -/
def runCameraCalls [Matrix4x4 M] (s : RenderingStatus M L MP PP T) (calls : List M) :
    RenderingStatus M L MP PP T :=
  calls.foldl setCameraInverseMatrix s

def applyMaterialCall (s : RenderingStatus M L MP PP T) : MaterialCall MP →
    RenderingStatus M L MP PP T
  | .setMaterial mat => s.setMaterial mat
  | .disableMaterial => s.disableMaterial

def runMaterialCalls (s : RenderingStatus M L MP PP T) (calls : List (MaterialCall MP)) :
    RenderingStatus M L MP PP T :=
  calls.foldl applyMaterialCall s

def applyModelViewCall [Matrix4x4 M] (s : RenderingStatus M L MP PP T) : ModelViewCall M →
    RenderingStatus M L MP PP T
  | .setModelViewMatrix matrix => s.setModelViewMatrix matrix
  | .multModelViewMatrix matrix => s.multModelViewMatrix matrix

def runModelViewCalls [Matrix4x4 M] (s : RenderingStatus M L MP PP T)
    (calls : List (ModelViewCall M)) : RenderingStatus M L MP PP T :=
  calls.foldl applyModelViewCall s

/-- Calls `setProjectionMatrix(m)` for each `m` of the list, in order. -/
def runProjectionCalls (s : RenderingStatus M L MP PP T) (calls : List M) :
    RenderingStatus M L MP PP T :=
  calls.foldl setProjectionMatrix s

/-- Calls `setTextureUnitUsage(unit, use)` for each pair of the list, in order;
the first call that throws ends the sequence. -/
def runTextureCalls (s : RenderingStatus M L MP PP T) :
    List (Nat × T) → Except (RenderingStatus M L MP PP T) (RenderingStatus M L MP PP T)
  | [] => Except.ok s
  | (unit, use) :: rest =>
    match s.setTextureUnitUsage unit use with
    | Except.ok s1 => runTextureCalls s1 rest
    | Except.error s1 => Except.error s1

def applyLightCall (s : RenderingStatus M L MP PP T) : LightCall L →
    Option (RenderingStatus M L MP PP T)
  | .enableLight light => (s.enableLight light).map Prod.fst
  | .disableLight lightNumber => s.disableLight lightNumber

/-- Applies the light calls in order; `none` when one of them violates its
precondition. -/
def runLightCalls (s : RenderingStatus M L MP PP T) :
    List (LightCall L) → Option (RenderingStatus M L MP PP T)
  | [] => some s
  | call :: rest =>
    match s.applyLightCall call with
    | none => none
    | some s1 => runLightCalls s1 rest

end RenderingStatus

/-! ## Vocabulary of the theorems -/

namespace RenderingStatus

variable {M L MP PP T : Type}

/-- All six check numbers are values of `uint32_t`. -/
def CheckNumbersInRange (s : RenderingStatus M L MP PP T) : Prop :=
  s.cameraCheckNumber < 2 ^ 32 ∧ s.lightsCheckNumber < 2 ^ 32 ∧
  s.materialCheckNumber < 2 ^ 32 ∧ s.modelViewMatrixCheckNumber < 2 ^ 32 ∧
  s.projectionMatrixCheckNumber < 2 ^ 32 ∧ s.textureUnitUsagesCheckNumber < 2 ^ 32

instance (s : RenderingStatus M L MP PP T) : Decidable (CheckNumbersInRange s) := by
  unfold CheckNumbersInRange
  infer_instance

/-- The value of the material group: the enabled flag and the material record. -/
def materialValue (s : RenderingStatus M L MP PP T) : Bool × MP :=
  (s.materialEnabled, s.material)

/-- Two statuses hold the same lights value: the same slots are enabled, and
every enabled slot stores the same light parameters in both. -/
def SameLights (s actual : RenderingStatus M L MP PP T) : Prop :=
  s.lightsEnabled = actual.lightsEnabled ∧
    ∀ slot : Fin MAX_LIGHTS, s.lightsEnabled slot = true → s.lights slot = actual.lights slot

/-- The enabled slots are contiguous: no disabled slot lies between two enabled
ones. -/
def GapFree (enabled : Fin MAX_LIGHTS → Bool) : Prop :=
  ∀ a b c : Fin MAX_LIGHTS, a < b → b < c → enabled a = true → enabled c = true →
    enabled b = true

instance (enabled : Fin MAX_LIGHTS → Bool) : Decidable (GapFree enabled) := by
  unfold GapFree
  infer_instance

/-- The statuses a program can hold when `MAX_TEXTURES` is `maxTextures`: the
constructed ones, and those obtained from them by the public methods that
modify a status. A method that fails an assertion ends the program and yields
no status; `setTextureUnitUsage` that throws leaves a status behind, which is
reachable as well. A copy of a status is the same value. -/
inductive Reachable [Matrix4x4 M] [Inhabited L] [Inhabited MP] [Inhabited PP]
    [TexUnitUsage T] (maxTextures : Nat) : RenderingStatus M L MP PP T → Prop where
  | constructed (shader : Option Nat) : Reachable maxTextures (new maxTextures shader)
  | markInitialized {s} : Reachable maxTextures s → Reachable maxTextures s.markInitialized
  | setCameraInverseMatrix {s} (matrix : M) :
    Reachable maxTextures s → Reachable maxTextures (s.setCameraInverseMatrix matrix)
  | updateCameraMatrix {s actual} :
    Reachable maxTextures s → Reachable maxTextures actual →
      Reachable maxTextures (s.updateCameraMatrix actual)
  | enableLight {s s1} (light : L) (pos : Nat) :
    Reachable maxTextures s → s.enableLight light = some (s1, pos) → Reachable maxTextures s1
  | disableLight {s s1} (lightNumber : Nat) :
    Reachable maxTextures s → s.disableLight lightNumber = some s1 → Reachable maxTextures s1
  | updateLights {s actual} :
    Reachable maxTextures s → Reachable maxTextures actual →
      Reachable maxTextures (s.updateLights actual)
  | updateLightParameter {s s1} (lightNumber : Nat) (light : L) :
    Reachable maxTextures s → s.updateLightParameter lightNumber light = some s1 →
      Reachable maxTextures s1
  | setMaterial {s} (mat : MP) :
    Reachable maxTextures s → Reachable maxTextures (s.setMaterial mat)
  | updateMaterial {s actual} :
    Reachable maxTextures s → Reachable maxTextures actual →
      Reachable maxTextures (s.updateMaterial actual)
  | disableMaterial {s} : Reachable maxTextures s → Reachable maxTextures s.disableMaterial
  | setModelViewMatrix {s} (matrix : M) :
    Reachable maxTextures s → Reachable maxTextures (s.setModelViewMatrix matrix)
  | multModelViewMatrix {s} (matrix : M) :
    Reachable maxTextures s → Reachable maxTextures (s.multModelViewMatrix matrix)
  | updateModelViewMatrix {s actual} :
    Reachable maxTextures s → Reachable maxTextures actual →
      Reachable maxTextures (s.updateModelViewMatrix actual)
  | setPointParameters {s} (p : PP) :
    Reachable maxTextures s → Reachable maxTextures (s.setPointParameters p)
  | setProjectionMatrix {s} (matrix : M) :
    Reachable maxTextures s → Reachable maxTextures (s.setProjectionMatrix matrix)
  | updateProjectionMatrix {s actual} :
    Reachable maxTextures s → Reachable maxTextures actual →
      Reachable maxTextures (s.updateProjectionMatrix actual)
  | setTextureUnitUsage {s s1} (unit : Nat) (use : T) :
    Reachable maxTextures s → s.setTextureUnitUsage unit use = Except.ok s1 →
      Reachable maxTextures s1
  | setTextureUnitUsageThrown {s s1} (unit : Nat) (use : T) :
    Reachable maxTextures s → s.setTextureUnitUsage unit use = Except.error s1 →
      Reachable maxTextures s1
  | updateTextureUnits {s actual} :
    Reachable maxTextures s → Reachable maxTextures actual →
      Reachable maxTextures (s.updateTextureUnits actual)

/-- The bit positions read by the loop `while(lightsEnabled[pos] != stop) ++pos;`
started at `pos`, in order (the instrumented form of `scanUntil`). -/
def scanUntilReads (enabled : Fin MAX_LIGHTS → Bool) (stop : Bool) : Nat → Nat → List Nat
  | 0, _ => []
  | fuel + 1, pos =>
    pos ::
      (if h : pos < MAX_LIGHTS then
        if enabled ⟨pos, h⟩ = stop then [] else scanUntilReads enabled stop fuel (pos + 1)
      else [])

/-- The bit positions read by the outer loop of `getEnabledLight` (the
instrumented form of `advanceEnabled`). -/
def advanceEnabledReads (enabled : Fin MAX_LIGHTS → Bool) : Nat → Nat → List Nat
  | 0, _ => []
  | index + 1, pos =>
    scanUntilReads enabled true (MAX_LIGHTS + 1) pos ++
      (match scanUntil enabled true (MAX_LIGHTS + 1) pos with
      | none => []
      | some pos1 => advanceEnabledReads enabled index (pos1 + 1))

/-- Every position that `getEnabledLight(index)` reads once its assertion has
passed: the positions of `lightsEnabled` read by the two loops, followed by the
position of `lights` whose record is returned. -/
def getEnabledLightReads (enabled : Fin MAX_LIGHTS → Bool) (index : Nat) : List Nat :=
  scanUntilReads enabled true (MAX_LIGHTS + 1) 0 ++
    (match scanUntil enabled true (MAX_LIGHTS + 1) 0 with
    | none => []
    | some pos =>
      advanceEnabledReads enabled index pos ++
        (match advanceEnabled enabled index pos with
        | none => []
        | some last => [last]))

/-- The indices `i` for which the loop of `lightsChanged` calls
`getEnabledLight(i)` on both statuses (the instrumented form of
`lightsChangedLoop`). -/
def lightsChangedLoopCalls [DecidableEq L] (s actual : RenderingStatus M L MP PP T) :
    Nat → Nat → List Nat
  | 0, _ => []
  | remaining + 1, i =>
    i ::
      (match s.getEnabledLight i, actual.getEnabledLight i with
      | some a, some b => if a ≠ b then [] else lightsChangedLoopCalls s actual remaining (i + 1)
      | _, _ => [])

/-- The indices `i` for which `lightsChanged` calls `getEnabledLight(i)` on both
statuses. -/
def lightsChangedCalls [DecidableEq L] (s actual : RenderingStatus M L MP PP T) : List Nat :=
  if s.lightsCheckNumber = actual.lightsCheckNumber then []
  else if s.lightsEnabled ≠ actual.lightsEnabled then []
  else lightsChangedLoopCalls s actual s.getNumEnabledLights 0

end RenderingStatus

/-- The state groups of a status. -/
inductive Group where
  | camera
  | lights
  | material
  | modelView
  | point
  | projection
  | textureUnits
  deriving DecidableEq

namespace RenderingStatus

variable {M L MP PP T : Type}

/-- Two statuses agree on a group: on its check number (if it has one) and on
every field of the group. -/
def SameGroup (s t : RenderingStatus M L MP PP T) : Group → Prop
  | .camera =>
    s.cameraCheckNumber = t.cameraCheckNumber ∧ s.cameraMatrix = t.cameraMatrix ∧
      s.cameraInverseMatrix = t.cameraInverseMatrix
  | .lights =>
    s.lightsCheckNumber = t.lightsCheckNumber ∧ s.lights = t.lights ∧
      s.lightsEnabled = t.lightsEnabled
  | .material =>
    s.materialCheckNumber = t.materialCheckNumber ∧ s.materialEnabled = t.materialEnabled ∧
      s.material = t.material
  | .modelView =>
    s.modelViewMatrixCheckNumber = t.modelViewMatrixCheckNumber ∧
      s.modelViewMatrix = t.modelViewMatrix
  | .point => s.pointParameters = t.pointParameters
  | .projection =>
    s.projectionMatrixCheckNumber = t.projectionMatrixCheckNumber ∧
      s.projectionMatrix = t.projectionMatrix
  | .textureUnits =>
    s.textureUnitUsagesCheckNumber = t.textureUnitUsagesCheckNumber ∧
      s.textureUnitUsages = t.textureUnitUsages

/-- Going from `s` to `t` touched at most the group `g`: the shader association,
the initialized flag and every other group are the same in both. -/
def OnlyTouches (g : Group) (s t : RenderingStatus M L MP PP T) : Prop :=
  s.shader = t.shader ∧ s.initialized = t.initialized ∧
    ∀ g1 : Group, g1 ≠ g → SameGroup s t g1

/-- The Changed predicate of a group. -/
def groupChanged [DecidableEq M] [DecidableEq L] [DecidableEq MP] [DecidableEq PP]
    [DecidableEq T] (s actual : RenderingStatus M L MP PP T) : Group → Option Bool
  | .camera => some (s.cameraInverseMatrixChanged actual)
  | .lights => s.lightsChanged actual
  | .material => some (s.materialChanged actual)
  | .modelView => some (s.modelViewMatrixChanged actual)
  | .point => some (s.pointParametersChanged actual)
  | .projection => some (s.projectionMatrixChanged actual)
  | .textureUnits => some (s.textureUnitsChanged actual)

end RenderingStatus

/-! ## Test instances

One by one rational matrices stand for `Geometry::Matrix4x4f`, natural numbers
for the parameter records and for the texture unit usage (`0` is
`GENERAL_PURPOSE`). -/

instance : Matrix4x4 ℚ where
  identity := 1
  mul := fun a b => a * b
  inverse := fun a => a⁻¹

instance : TexUnitUsage Nat where
  GENERAL_PURPOSE := 0

/-- The concrete status type used for examples. -/
abbrev TestStatus : Type := RenderingStatus ℚ Nat Nat Nat Nat

/-- A freshly constructed status with eight texture units and no shader. -/
def fresh : TestStatus := RenderingStatus.new 8 none

/-- The status after `enableLight(10)` on a fresh status: slot 0 is enabled and
stores the parameters 10. -/
def oneLight : TestStatus :=
  { fresh with
    lightsCheckNumber := 1
    lights := Function.update fresh.lights 0 10
    lightsEnabled := Function.update fresh.lightsEnabled 0 true }

/-- The status after `enableLight(10)`, `enableLight(11)`, `enableLight(12)`,
`disableLight(1)` on a fresh status: the slots 0 and 2 are enabled, the slots
0, 1, 2 store 10, 11, 12. -/
def gapStatus : TestStatus :=
  { fresh with
    lightsCheckNumber := 4
    lights := Function.update (Function.update (Function.update fresh.lights 0 10) 1 11) 2 12
    lightsEnabled :=
      Function.update (Function.update (Function.update (Function.update
        fresh.lightsEnabled 0 true) 1 true) 2 true) 1 false }

/-- The call sequence `disableLight(0)`, `enableLight(11)` repeated `k` times. -/
def relight : Nat → List (LightCall Nat)
  | 0 => []
  | k + 1 => LightCall.disableLight 0 :: LightCall.enableLight 11 :: relight k

/-! ## TextureUtils: textures from bitmaps and raw files

A shallow embedding of `createTextureFromBitmap` and `createTextureFromRAW` of
`Texture/TextureUtils.cpp`.

* `uint32_t` and `uint16_t` values are `Nat`; a result stored in such a variable
  is taken `% 2^32` or `% 2^16`.
* The loop variable `row` of type `uint_fast16_t` is taken to be wide enough for
  every `uint32_t` height (it has 64 bits with glibc, 32 with MSVC).
* The classes `Texture`, `Texture::Format`, `Util::Bitmap`, `Util::PixelFormat`
  and the OpenGL constants are declared outside this file; they appear as the
  structures and enumerations below, and what the code takes from them without
  showing it (the default format, the memory that `allocateLocalData()`
  provides) is a parameter of the functions.
* A read or write outside a block of memory is undefined behaviour: `none`,
  reported as `Outcome.undefined`.
-/

namespace TextureUtils

/-- The OpenGL constants named in the two functions, and the wrap mode a format
has by default. -/
inductive GLenum where
  | GL_TEXTURE_1D
  | GL_TEXTURE_1D_ARRAY
  | GL_TEXTURE_2D
  | GL_TEXTURE_2D_ARRAY
  | GL_TEXTURE_3D
  | GL_TEXTURE_CUBE_MAP
  | GL_TEXTURE_CUBE_MAP_ARRAY
  | GL_TEXTURE_BUFFER
  | GL_UNSIGNED_BYTE
  | GL_FLOAT
  | GL_RGBA
  | GL_RGB
  | GL_BGRA
  | GL_BGR
  | GL_RED
  | GL_CLAMP_TO_EDGE
  | GL_REPEAT
  deriving DecidableEq

/-- The enumeration `TextureType`; `invalid` stands for every value that is none
of the enumerators. -/
inductive TextureType where
  | TEXTURE_1D
  | TEXTURE_1D_ARRAY
  | TEXTURE_2D
  | TEXTURE_2D_ARRAY
  | TEXTURE_3D
  | TEXTURE_CUBE_MAP
  | TEXTURE_CUBE_MAP_ARRAY
  | TEXTURE_BUFFER
  | invalid
  deriving DecidableEq

/-- The values of `Util::TypeConstant` that `createTextureFromBitmap` tells
apart. -/
inductive TypeConstant where
  | UINT8
  | FLOAT
  | other
  deriving DecidableEq

/-- The values of `Util::PixelFormat` that `createTextureFromBitmap` tells
apart. -/
inductive PixelFormat where
  | RGBA
  | RGB
  | BGRA
  | BGR
  | MONO
  | other
  deriving DecidableEq

/-- A block of memory seen as an array: the number of its cells and the content
of each cell (a byte, or for an array of floats the number standing for the
float). -/
structure Buffer where
  size : Nat
  cell : Nat → Nat

/-- The fields of `Texture::Format` that the two functions assign. -/
structure Format where
  glTextureType : GLenum
  sizeX : Nat
  sizeY : Nat
  numLayers : Nat
  glDataType : GLenum
  glFormat : GLenum
  glInternalFormat : GLenum
  glWrapS : GLenum
  glWrapT : GLenum
  glWrapR : GLenum

/-- A `Texture` with local data. -/
structure Texture where
  format : Format
  localData : Buffer

/-- A `Util::Bitmap`: its dimensions, the value type and the byte size of its
pixel format, and its data. -/
structure Bitmap where
  width : Nat
  height : Nat
  valueType : TypeConstant
  pixelFormat : PixelFormat
  bytesPerPixel : Nat
  data : Buffer

/-- How a call of one of the factory functions ends: with a texture, with the
null pointer, with an exception, or in undefined behaviour. -/
inductive Outcome (α : Type) where
  | ok (value : α)
  | null
  | thrown
  | undefined

/-- The function `textureTypeToGLTextureType`; `none` when it throws
`std::logic_error`. -/
def textureTypeToGLTextureType : TextureType → Option GLenum
  | .TEXTURE_1D => some .GL_TEXTURE_1D
  | .TEXTURE_1D_ARRAY => some .GL_TEXTURE_1D_ARRAY
  | .TEXTURE_2D => some .GL_TEXTURE_2D
  | .TEXTURE_2D_ARRAY => some .GL_TEXTURE_2D_ARRAY
  | .TEXTURE_3D => some .GL_TEXTURE_3D
  | .TEXTURE_CUBE_MAP => some .GL_TEXTURE_CUBE_MAP
  | .TEXTURE_CUBE_MAP_ARRAY => some .GL_TEXTURE_CUBE_MAP_ARRAY
  | .TEXTURE_BUFFER => some .GL_TEXTURE_BUFFER
  | .invalid => none

/-- The call `std::copy(src + srcOffset, src + srcOffset + count, dst + dstOffset)`
between two different blocks. -/
def copyBytes (src : Buffer) (srcOffset count : Nat) (dst : Buffer) (dstOffset : Nat) :
    Option Buffer :=
  if srcOffset + count ≤ src.size ∧ dstOffset + count ≤ dst.size then
    some
      { size := dst.size
        cell := fun i =>
          if dstOffset ≤ i ∧ i < dstOffset + count then src.cell (srcOffset + (i - dstOffset))
          else dst.cell i }
  else none

/-- The loop under `// Flip the rows.` of `createTextureFromBitmap`, from row
`row` on with `remaining` rows left. -/
def flipRows (bHeight rowSize : Nat) (pixels : Buffer) : Nat → Nat → Buffer → Option Buffer
  | 0, _, localData => some localData
  | remaining + 1, row, localData =>
    let offset := row * rowSize % 2 ^ 32
    let reverseRow := (bHeight - 1 - row) % 2 ^ 16
    let reverseOffset := reverseRow * rowSize % 2 ^ 32
    match copyBytes pixels reverseOffset rowSize localData offset with
    | none => none
    | some next => flipRows bHeight rowSize pixels remaining (row + 1) next

/-- The pixel format branch of `createTextureFromBitmap`: `glFormat` and
`glInternalFormat`, or `none` for an unimplemented colour format. `libGL` tells
whether `LIB_GL` is defined. -/
def bitmapGLFormat (libGL : Bool) : PixelFormat → Option (GLenum × GLenum)
  | .RGBA => some (.GL_RGBA, .GL_RGBA)
  | .RGB => some (.GL_RGB, .GL_RGB)
  | .BGRA => if libGL then some (.GL_BGRA, .GL_RGBA) else none
  | .BGR => if libGL then some (.GL_BGR, .GL_RGB) else none
  | .MONO => if libGL then some (.GL_RED, .GL_RED) else none
  | .other => none

/-- The function `createTextureFromBitmap`. `defaultFormat` is the
default-constructed `Texture::Format`, `allocateLocalData` the memory that
`texture->allocateLocalData()` provides for a format. -/
def createTextureFromBitmap (libGL : Bool) (defaultFormat : Format)
    (allocateLocalData : Format → Buffer) (bitmap : Bitmap) (type : TextureType)
    (numLayers : Nat) (clampToEdge : Bool) : Outcome Texture :=
  let bHeight := bitmap.height
  let width := bitmap.width
  let dataType : Option GLenum :=
    match bitmap.valueType with
    | .UINT8 => some .GL_UNSIGNED_BYTE
    | .FLOAT => some .GL_FLOAT
    | .other => none
  match dataType with
  | none => Outcome.null
  | some glDataType =>
    if numLayers = 0 ∨ numLayers > bHeight ∨ bHeight % numLayers ≠ 0 then Outcome.null
    else
      match textureTypeToGLTextureType type with
      | none => Outcome.thrown
      | some glTextureType =>
        match bitmapGLFormat libGL bitmap.pixelFormat with
        | none => Outcome.null
        | some (glFormat, glInternalFormat) =>
          let format0 : Format :=
            { defaultFormat with
              glDataType := glDataType
              glTextureType := glTextureType
              sizeY := bHeight / numLayers
              sizeX := width
              numLayers := numLayers
              glFormat := glFormat
              glInternalFormat := glInternalFormat }
          let format : Format :=
            if clampToEdge then
              { format0 with
                glWrapS := .GL_CLAMP_TO_EDGE
                glWrapT := .GL_CLAMP_TO_EDGE
                glWrapR := .GL_CLAMP_TO_EDGE }
            else format0
          let rowSize := width * bitmap.bytesPerPixel % 2 ^ 32
          match flipRows bHeight rowSize bitmap.data bHeight 0 (allocateLocalData format) with
          | none => Outcome.undefined
          | some localData => Outcome.ok { format := format, localData := localData }

/-- The read `reinterpret_cast<const unsigned short *>(buffer.data())[k]` (low
byte first). -/
def readUnsignedShort (buffer : List Nat) (k : Nat) : Option Nat :=
  match buffer.get? (2 * k), buffer.get? (2 * k + 1) with
  | some low, some high => some (low + 256 * high)
  | _, _ => none

/-- The write `data[p] = f`. -/
def writeCell (data : Buffer) (p value : Nat) : Option Buffer :=
  if p < data.size then
    some { size := data.size, cell := fun i => if i = p then value else data.cell i }
  else none

/-- The inner loop of `createTextureFromRAW` over `i`. The float
`sample / 0xFFFF` is stored as `sample`. -/
def rawFillLine (width : Nat) (buffer : List Nat) (v line : Nat) : Nat → Nat → Buffer →
    Option Buffer
  | 0, _, data => some data
  | remaining + 1, i, data =>
    match readUnsignedShort buffer ((v + i) % 2 ^ 32) with
    | none => none
    | some f =>
      let p := (width * line + i) * 3 % 2 ^ 32
      match writeCell data p f with
      | none => none
      | some data0 =>
        match writeCell data0 ((p + 1) % 2 ^ 32) f with
        | none => none
        | some data1 =>
          match writeCell data1 ((p + 2) % 2 ^ 32) f with
          | none => none
          | some data2 => rawFillLine width buffer v line remaining (i + 1) data2

/-- The outer loop of `createTextureFromRAW` over `line`. -/
def rawFill (width : Nat) (buffer : List Nat) (flip_h : Bool) : Nat → Nat → Buffer →
    Option Buffer
  | 0, _, data => some data
  | remaining + 1, line, data =>
    let v := if flip_h then width * (width - line - 1) % 2 ^ 32 else width * line % 2 ^ 32
    match rawFillLine width buffer v line width 0 data with
    | none => none
    | some next => rawFill width buffer flip_h remaining (line + 1) next

/-- The value of `!width*width*2` in `uint32_t` arithmetic: `!width` is 1 for
`width == 0` and 0 otherwise, and is multiplied first. -/
def notWidthTimesWidthTimesTwo (width : Nat) : Nat :=
  (if width = 0 then 1 else 0) * width % 2 ^ 32 * 2 % 2 ^ 32

/-- The function `createTextureFromRAW`, on the content `buffer` of the file
(empty when the file cannot be loaded). `RAW_16BIT_BW` is declared in
`TextureUtils.h`; `allocateFloats` is the memory of `allocateLocalData()` seen
through `reinterpret_cast<float *>`. The width is the value of
`static_cast<uint32_t>(std::sqrt(buffer.size()/2.0))`, the integer square
root of half the size. -/
def createTextureFromRAW (RAW_16BIT_BW : Nat) (defaultFormat : Format)
    (allocateFloats : Format → Buffer) (type : Nat) (buffer : List Nat) (flip_h : Bool) :
    Outcome Texture :=
  if type ≠ RAW_16BIT_BW then Outcome.null
  else if buffer.isEmpty then Outcome.null
  else
    let width := Nat.sqrt (buffer.length / 2) % 2 ^ 32
    if notWidthTimesWidthTimesTwo width = buffer.length then Outcome.null
    else
      let format : Format :=
        { defaultFormat with
          glTextureType := .GL_TEXTURE_2D
          sizeY := width
          sizeX := width
          glDataType := .GL_FLOAT
          glInternalFormat := .GL_RGB
          glFormat := .GL_RGB }
      match rawFill width buffer flip_h width 0 (allocateFloats format) with
      | none => Outcome.undefined
      | some data => Outcome.ok { format := format, localData := data }

/-! ### Test data -/

/-- A default format for the examples. -/
def testFormat : Format :=
  { glTextureType := .GL_TEXTURE_2D, sizeX := 0, sizeY := 0, numLayers := 1,
    glDataType := .GL_UNSIGNED_BYTE, glFormat := .GL_RGBA, glInternalFormat := .GL_RGBA,
    glWrapS := .GL_REPEAT, glWrapT := .GL_REPEAT, glWrapR := .GL_REPEAT }

/-- Zero-filled local data of `sizeX * sizeY * numLayers` pixels of
`cellsPerPixel` cells each. -/
def testAllocate (cellsPerPixel : Nat) (format : Format) : Buffer :=
  { size := format.sizeX * format.sizeY * format.numLayers * cellsPerPixel
    cell := fun _ => 0 }

/-- An RGBA bitmap of width 1 and height 65537 with one byte per channel: the
last row (bytes 262144 to 262147) is white, every other row is black. -/
def tallBitmap : Bitmap :=
  { width := 1, height := 65537, valueType := .UINT8, pixelFormat := .RGBA,
    bytesPerPixel := 4
    data := { size := 262148, cell := fun i => if 262144 ≤ i then 255 else 0 } }

end TextureUtils

end Rendering

/-! # Lemmas -/

namespace Rendering
namespace RenderingStatus
variable {M L MP PP T : Type}

/-! ### Check numbers -/

theorem wrap_step (c n : Nat) : ((c + 1) % 2 ^ 32 + n) % 2 ^ 32 = (c + (n + 1)) % 2 ^ 32 := by
  omega

theorem wrap_eq_iff (c n : Nat) (hc : c < 2 ^ 32) : (c + n) % 2 ^ 32 = c ↔ n % 2 ^ 32 = 0 := by
  omega

/-- A fold of steps that each increment a 32-bit counter adds the number of
steps to it, modulo `2^32`. -/
theorem foldl_checkNumber {σ α : Type} (f : σ → α → σ) (c : σ → Nat)
    (hf : ∀ s x, c (f s x) = (c s + 1) % 2 ^ 32) (calls : List α) :
    ∀ s : σ, c s < 2 ^ 32 → c (calls.foldl f s) = (c s + calls.length) % 2 ^ 32 := by
  induction calls with
  | nil => intro s hs; simpa using (Nat.mod_eq_of_lt hs).symm
  | cons x rest ih =>
    intro s hs
    have h := ih (f s x) (by rw [hf]; exact Nat.mod_lt _ (by norm_num))
    rw [List.foldl_cons, h, hf, List.length_cons]
    exact wrap_step _ _

theorem runProjectionCalls_checkNumber (s : RenderingStatus M L MP PP T) (calls : List M)
    (hs : s.projectionMatrixCheckNumber < 2 ^ 32) :
    (s.runProjectionCalls calls).projectionMatrixCheckNumber =
      (s.projectionMatrixCheckNumber + calls.length) % 2 ^ 32 :=
  foldl_checkNumber setProjectionMatrix (fun s => s.projectionMatrixCheckNumber)
    (fun _ _ => rfl) calls s hs

theorem runCameraCalls_checkNumber [Matrix4x4 M] (s : RenderingStatus M L MP PP T)
    (calls : List M) (hs : s.cameraCheckNumber < 2 ^ 32) :
    (s.runCameraCalls calls).cameraCheckNumber =
      (s.cameraCheckNumber + calls.length) % 2 ^ 32 :=
  foldl_checkNumber setCameraInverseMatrix (fun s => s.cameraCheckNumber)
    (fun _ _ => rfl) calls s hs

theorem runMaterialCalls_checkNumber (s : RenderingStatus M L MP PP T)
    (calls : List (MaterialCall MP)) (hs : s.materialCheckNumber < 2 ^ 32) :
    (s.runMaterialCalls calls).materialCheckNumber =
      (s.materialCheckNumber + calls.length) % 2 ^ 32 :=
  foldl_checkNumber applyMaterialCall (fun s => s.materialCheckNumber)
    (fun _ x => by cases x <;> rfl) calls s hs

theorem runModelViewCalls_checkNumber [Matrix4x4 M] (s : RenderingStatus M L MP PP T)
    (calls : List (ModelViewCall M)) (hs : s.modelViewMatrixCheckNumber < 2 ^ 32) :
    (s.runModelViewCalls calls).modelViewMatrixCheckNumber =
      (s.modelViewMatrixCheckNumber + calls.length) % 2 ^ 32 :=
  foldl_checkNumber applyModelViewCall (fun s => s.modelViewMatrixCheckNumber)
    (fun _ x => by cases x <;> rfl) calls s hs

/-- In-range texture calls all return normally; the check number advances by
their number and the size of the vector is kept. -/
theorem runTextureCalls_ok (calls : List (Nat × T)) :
    ∀ s : RenderingStatus M L MP PP T, s.textureUnitUsagesCheckNumber < 2 ^ 32 →
      (∀ c ∈ calls, c.1 < s.textureUnitUsages.length) →
      ∃ s1, s.runTextureCalls calls = Except.ok s1 ∧
        s1.textureUnitUsagesCheckNumber =
          (s.textureUnitUsagesCheckNumber + calls.length) % 2 ^ 32 ∧
        s1.textureUnitUsages.length = s.textureUnitUsages.length := by
  induction calls with
  | nil =>
    intro s hs _
    exact ⟨s, rfl, by simpa using (Nat.mod_eq_of_lt hs).symm, rfl⟩
  | cons c rest ih =>
    intro s hs hin
    obtain ⟨unit, use⟩ := c
    have hu : unit < s.textureUnitUsages.length := hin (unit, use) (List.mem_cons_self _ _)
    let s0 : RenderingStatus M L MP PP T :=
      { s with
        textureUnitUsagesCheckNumber := (s.textureUnitUsagesCheckNumber + 1) % 2 ^ 32
        textureUnitUsages := s.textureUnitUsages.set unit use }
    have hstep : s.setTextureUnitUsage unit use = Except.ok s0 := by
      simp [setTextureUnitUsage, hu, s0]
    obtain ⟨s1, h1, h2, h3⟩ := ih s0 (Nat.mod_lt _ (by norm_num))
      (fun c hc => by
        simpa [s0] using hin c (List.mem_cons_of_mem _ hc))
    refine ⟨s1, ?_, ?_, ?_⟩
    · simp only [runTextureCalls, hstep]; exact h1
    · rw [h2, List.length_cons]; exact wrap_step _ _
    · simpa [s0] using h3


/-- After a non-empty run of `setProjectionMatrix` calls with the same matrix,
that matrix is stored. -/
theorem runProjectionCalls_replicate (m : M) (n : Nat) (hn : 0 < n)
    (s : RenderingStatus M L MP PP T) :
    (s.runProjectionCalls (List.replicate n m)).projectionMatrix = m := by
  obtain ⟨k, rfl⟩ : ∃ k, n = k + 1 := ⟨n - 1, by omega⟩
  rw [List.replicate_succ', runProjectionCalls, List.foldl_append]
  rfl

/-! ### Counting enabled slots -/

theorem countBelow_succ_on (en : Fin MAX_LIGHTS → Bool) (n : Nat) (h : n < MAX_LIGHTS)
    (hon : en ⟨n, h⟩ = true) : countBelow en (n + 1) = countBelow en n + 1 := by
  simp [countBelow, h, hon]

theorem countBelow_succ_off (en : Fin MAX_LIGHTS → Bool) (n : Nat) (h : n < MAX_LIGHTS)
    (hoff : en ⟨n, h⟩ = false) : countBelow en (n + 1) = countBelow en n := by
  simp [countBelow, h, hoff]

theorem countBelow_succ_le (en : Fin MAX_LIGHTS → Bool) (n : Nat) :
    countBelow en n ≤ countBelow en (n + 1) ∧ countBelow en (n + 1) ≤ countBelow en n + 1 := by
  simp only [countBelow]
  split
  · split <;> omega
  · omega

theorem countBelow_mono (en : Fin MAX_LIGHTS → Bool) {m n : Nat} (h : m ≤ n) :
    countBelow en m ≤ countBelow en n := by
  induction n with
  | zero => simp_all
  | succ k ih =>
    rcases Nat.eq_or_lt_of_le h with rfl | hlt
    · exact le_rfl
    · exact (ih (by omega)).trans (countBelow_succ_le en k).1

theorem countBelow_le (en : Fin MAX_LIGHTS → Bool) (n : Nat) : countBelow en n ≤ n := by
  induction n with
  | zero => simp [countBelow]
  | succ k ih => have := (countBelow_succ_le en k).2; omega

/-- Between two positions with different counts lies an enabled slot. -/
theorem exists_on_of_countBelow_lt (en : Fin MAX_LIGHTS → Bool) (m : Nat) :
    ∀ n, countBelow en m < countBelow en n →
      ∃ r, m ≤ r ∧ r < n ∧ ∃ h : r < MAX_LIGHTS, en ⟨r, h⟩ = true := by
  intro n
  induction n with
  | zero => intro h; simp [countBelow] at h
  | succ k ih =>
    intro h
    by_cases hk : countBelow en m < countBelow en k
    · obtain ⟨r, h1, h2, h3⟩ := ih hk
      exact ⟨r, h1, by omega, h3⟩
    · have hmk : m ≤ k := by
        by_contra hc
        have := countBelow_mono en (show k + 1 ≤ m by omega)
        omega
      have hstep : countBelow en k < countBelow en (k + 1) := by
        have := countBelow_mono en hmk
        omega
      by_cases hk8 : k < MAX_LIGHTS
      · cases hen : en ⟨k, hk8⟩ with
        | true => exact ⟨k, hmk, by omega, hk8, hen⟩
        | false => rw [countBelow_succ_off en k hk8 hen] at hstep; omega
      · simp [countBelow, hk8] at hstep

/-- Below a position whose count is smaller than the position lies a disabled slot. -/
theorem exists_off_of_countBelow_lt (en : Fin MAX_LIGHTS → Bool) :
    ∀ n, n ≤ MAX_LIGHTS → countBelow en n < n →
      ∃ r, r < n ∧ ∃ h : r < MAX_LIGHTS, en ⟨r, h⟩ = false := by
  intro n
  induction n with
  | zero => intro _ h; simp at h
  | succ k ih =>
    intro hk8 h
    have hk : k < MAX_LIGHTS := by omega
    cases hen : en ⟨k, hk⟩ with
    | false => exact ⟨k, by omega, hk, hen⟩
    | true =>
      rw [countBelow_succ_on en k hk hen] at h
      obtain ⟨r, h1, h2⟩ := ih (by omega) (by omega)
      exact ⟨r, by omega, h2⟩

/-- No slot in `[m, n)` is enabled: the count does not move. -/
theorem countBelow_eq_of_all_off (en : Fin MAX_LIGHTS → Bool) (m : Nat) :
    ∀ n, m ≤ n → (∀ r (h : r < MAX_LIGHTS), m ≤ r → r < n → en ⟨r, h⟩ = false) →
      countBelow en n = countBelow en m := by
  intro n
  induction n with
  | zero => intro h _; have : m = 0 := by omega
            subst this; rfl
  | succ k ih =>
    intro hmk hall
    rcases Nat.eq_or_lt_of_le hmk with rfl | hlt
    · rfl
    · have hk := ih (by omega) (fun r h h1 h2 => hall r h h1 (by omega))
      by_cases hk8 : k < MAX_LIGHTS
      · rw [countBelow_succ_off en k hk8 (hall k hk8 (by omega) (by omega)), hk]
      · simp [countBelow, hk8, hk]

/-! ### The scan loops -/

/-- What a finished scan returns: the first position from `pos` on whose bit is
`stop`; it is in range. -/
theorem scanUntil_some (en : Fin MAX_LIGHTS → Bool) (stop : Bool) :
    ∀ fuel pos q, scanUntil en stop fuel pos = some q →
      pos ≤ q ∧ (∃ h : q < MAX_LIGHTS, en ⟨q, h⟩ = stop) ∧
        ∀ r (h : r < MAX_LIGHTS), pos ≤ r → r < q → en ⟨r, h⟩ ≠ stop := by
  intro fuel
  induction fuel with
  | zero => intro pos q h; simp [scanUntil] at h
  | succ f ih =>
    intro pos q h
    simp only [scanUntil] at h
    split at h
    · rename_i hpos
      split at h
      · rename_i hstop
        cases h
        exact ⟨le_rfl, ⟨hpos, hstop⟩, fun r _ h1 h2 => by omega⟩
      · rename_i hstop
        obtain ⟨h1, h2, h3⟩ := ih _ _ h
        refine ⟨by omega, h2, fun r hr h4 h5 => ?_⟩
        rcases Nat.eq_or_lt_of_le h4 with rfl | hlt
        · exact hstop
        · exact h3 r hr (by omega) h5
    · cases h

/-- A scan finishes when a bit equal to `stop` lies ahead within the fuel. -/
theorem scanUntil_isSome (en : Fin MAX_LIGHTS → Bool) (stop : Bool) :
    ∀ fuel pos q (h : q < MAX_LIGHTS), pos ≤ q → q - pos < fuel → en ⟨q, h⟩ = stop →
      ∃ p, scanUntil en stop fuel pos = some p := by
  intro fuel
  induction fuel with
  | zero => intro pos q h _ hf; omega
  | succ f ih =>
    intro pos q h hle hf hq
    have hpos : pos < MAX_LIGHTS := by omega
    simp only [scanUntil, hpos, dite_true]
    split
    · exact ⟨pos, rfl⟩
    · rename_i hstop
      have hne : pos ≠ q := by
        rintro rfl
        exact hstop hq
      exact ih (pos + 1) q h (by omega) (by omega) hq

/-- The skip loop of `getEnabledLight`, started at a position below which fewer
slots are enabled than in total, stops at the next enabled slot. -/
theorem scanUntil_on (en : Fin MAX_LIGHTS → Bool) (pos : Nat)
    (h : countBelow en pos < countBelow en MAX_LIGHTS) :
    ∃ q, scanUntil en true (MAX_LIGHTS + 1) pos = some q ∧ pos ≤ q ∧
      (∃ hq : q < MAX_LIGHTS, en ⟨q, hq⟩ = true) ∧
      countBelow en q = countBelow en pos ∧ countBelow en (q + 1) = countBelow en pos + 1 := by
  obtain ⟨r, h1, h2, h3, h4⟩ := exists_on_of_countBelow_lt en pos MAX_LIGHTS h
  obtain ⟨q, hq⟩ := scanUntil_isSome en true (MAX_LIGHTS + 1) pos r h3 h1 (by omega) h4
  obtain ⟨g1, ⟨g2, g3⟩, g4⟩ := scanUntil_some en true _ _ _ hq
  have hcnt : countBelow en q = countBelow en pos :=
    countBelow_eq_of_all_off en pos q g1 (fun r hr k1 k2 => by
      simpa using g4 r hr k1 k2)
  exact ⟨q, hq, g1, ⟨g2, g3⟩, hcnt, by rw [countBelow_succ_on en q g2 g3, hcnt]⟩

/-- The outer loop of `getEnabledLight`: from a position `pos` with at least
`index` enabled slots at or above it, it ends at a position `r ≤ MAX_LIGHTS`
with exactly `index` more enabled slots below it; when `index > 0`, `r` is the
position right after an enabled slot. -/
theorem advanceEnabled_spec (en : Fin MAX_LIGHTS → Bool) :
    ∀ index pos, pos ≤ MAX_LIGHTS →
      countBelow en pos + index ≤ countBelow en MAX_LIGHTS →
      ∃ r, advanceEnabled en index pos = some r ∧ pos ≤ r ∧ r ≤ MAX_LIGHTS ∧
        countBelow en r = countBelow en pos + index ∧
        (0 < index → ∃ q, r = q + 1 ∧ ∃ hq : q < MAX_LIGHTS, en ⟨q, hq⟩ = true) := by
  intro index
  induction index with
  | zero =>
    intro pos hpos _
    exact ⟨pos, rfl, le_rfl, hpos, rfl, fun h => absurd h (by omega)⟩
  | succ k ih =>
    intro pos _ hcnt
    obtain ⟨q, hq, h1, ⟨h2, h3⟩, h4, h5⟩ := scanUntil_on en pos (by omega)
    obtain ⟨r, g1, g2, g3, g4, g5⟩ := ih (q + 1) (by omega) (by omega)
    refine ⟨r, ?_, by omega, g3, by omega, fun _ => ?_⟩
    · simp only [advanceEnabled, hq]
      exact g1
    · rcases Nat.eq_zero_or_pos k with rfl | hk
      · simp only [advanceEnabled] at g1
        cases g1
        exact ⟨q, rfl, h2, h3⟩
      · exact g5 hk

/-- The position read by `getEnabledLight(index)` for `index` below the number
of enabled lights: it is in range and exactly `index` enabled slots lie below
it. For `index = 0` it is the first enabled slot; for `index > 0` it is the
position right after an enabled slot. -/
theorem enabledLightPos_spec (en : Fin MAX_LIGHTS → Bool) (index : Nat)
    (h : index < countBelow en MAX_LIGHTS) :
    ∃ r, enabledLightPos en index = some r ∧ r < MAX_LIGHTS ∧ countBelow en r = index ∧
      (index = 0 → ∃ hr : r < MAX_LIGHTS, en ⟨r, hr⟩ = true) ∧
      (0 < index → ∃ q, r = q + 1 ∧ ∃ hq : q < MAX_LIGHTS, en ⟨q, hq⟩ = true) := by
  obtain ⟨p, hp, -, ⟨h2, h3⟩, h4, -⟩ := scanUntil_on en 0 (by
    have h0 : countBelow en 0 = 0 := rfl
    omega)
  have hp0 : countBelow en p = 0 := h4
  obtain ⟨r, g1, g2, g3, g4, g5⟩ := advanceEnabled_spec en index p (by omega) (by omega)
  have hr8 : r < MAX_LIGHTS := by
    rcases Nat.eq_or_lt_of_le g3 with rfl | hlt
    · omega
    · exact hlt
  refine ⟨r, ?_, hr8, by omega, ?_, g5⟩
  · simp only [enabledLightPos, hp]
    exact g1
  · rintro rfl
    simp only [advanceEnabled] at g1
    cases g1
    exact ⟨h2, h3⟩

/-- Two enabled slots with the same number of enabled slots below them are the
same slot. -/
theorem slot_unique (en : Fin MAX_LIGHTS → Bool) (a b : Nat) (ha : a < MAX_LIGHTS)
    (hb : b < MAX_LIGHTS) (hena : en ⟨a, ha⟩ = true) (henb : en ⟨b, hb⟩ = true)
    (h : countBelow en a = countBelow en b) : a = b := by
  rcases Nat.lt_trichotomy a b with hlt | heq | hgt
  · have h1 := countBelow_succ_on en a ha hena
    have h2 := countBelow_mono en (show a + 1 ≤ b by omega)
    omega
  · exact heq
  · have h1 := countBelow_succ_on en b hb henb
    have h2 := countBelow_mono en (show b + 1 ≤ a by omega)
    omega

/-- When the enabled slots are contiguous, `getEnabledLight(index)` reads the
enabled slot that has exactly `index` enabled slots below it. -/
theorem enabledLightPos_gapFree (en : Fin MAX_LIGHTS → Bool) (hgap : GapFree en)
    (index : Nat) (h : index < countBelow en MAX_LIGHTS) :
    ∃ r, enabledLightPos en index = some r ∧ countBelow en r = index ∧
      ∃ hr : r < MAX_LIGHTS, en ⟨r, hr⟩ = true := by
  obtain ⟨r, h1, h2, h3, h4, h5⟩ := enabledLightPos_spec en index h
  refine ⟨r, h1, h3, h2, ?_⟩
  rcases Nat.eq_zero_or_pos index with rfl | hpos
  · obtain ⟨_, hr⟩ := h4 rfl
    exact hr
  · obtain ⟨q, rfl, hq, henq⟩ := h5 hpos
    obtain ⟨t, t1, t2, t3, t4⟩ := exists_on_of_countBelow_lt en (q + 1) MAX_LIGHTS (by omega)
    rcases Nat.eq_or_lt_of_le t1 with rfl | hlt
    · exact t4
    · exact hgap ⟨q, hq⟩ ⟨q + 1, h2⟩ ⟨t, t3⟩ (by simp [Fin.lt_def]) (by simpa [Fin.lt_def] using hlt)
        henq t4

/-! ### Switching one slot -/

theorem update_apply_fin {α : Type} (f : Fin MAX_LIGHTS → α) (p : Nat) (hp : p < MAX_LIGHTS)
    (v : α) (n : Nat) (hn : n < MAX_LIGHTS) :
    Function.update f ⟨p, hp⟩ v ⟨n, hn⟩ = if n = p then v else f ⟨n, hn⟩ := by
  simp [Function.update_apply, Fin.ext_iff]

/-- Switching slot `p` leaves the count below `n ≤ p` alone. -/
theorem countBelow_update_le (en : Fin MAX_LIGHTS → Bool) (p : Nat) (hp : p < MAX_LIGHTS)
    (b : Bool) : ∀ n, n ≤ p → countBelow (Function.update en ⟨p, hp⟩ b) n = countBelow en n := by
  intro n
  induction n with
  | zero => intro _; rfl
  | succ k ih =>
    intro hk
    have hk8 : k < MAX_LIGHTS := by omega
    have hne : k ≠ p := by omega
    simp only [countBelow, hk8, dite_true, update_apply_fin, hne, if_false, ih (by omega)]

/-- Enabling a disabled slot `p` adds one to the count above `p`. -/
theorem countBelow_update_on (en : Fin MAX_LIGHTS → Bool) (p : Nat) (hp : p < MAX_LIGHTS)
    (hoff : en ⟨p, hp⟩ = false) :
    ∀ n, p < n → countBelow (Function.update en ⟨p, hp⟩ true) n = countBelow en n + 1 := by
  intro n
  induction n with
  | zero => intro h; omega
  | succ k ih =>
    intro hk
    rcases Nat.eq_or_lt_of_le (Nat.le_of_lt_succ hk) with rfl | hlt
    · simp [countBelow, hp, update_apply_fin, hoff, countBelow_update_le en p hp true p le_rfl]
    · have hne : k ≠ p := by omega
      by_cases hk8 : k < MAX_LIGHTS
      · simp only [countBelow, hk8, dite_true, update_apply_fin, hne, if_false, ih hlt]
        omega
      · simp only [countBelow, hk8, dite_false, ih hlt]

/-- Disabling an enabled slot `p` takes one off the count above `p`. -/
theorem countBelow_update_off (en : Fin MAX_LIGHTS → Bool) (p : Nat) (hp : p < MAX_LIGHTS)
    (hon : en ⟨p, hp⟩ = true) :
    ∀ n, p < n → countBelow (Function.update en ⟨p, hp⟩ false) n + 1 = countBelow en n := by
  intro n
  induction n with
  | zero => intro h; omega
  | succ k ih =>
    intro hk
    rcases Nat.eq_or_lt_of_le (Nat.le_of_lt_succ hk) with rfl | hlt
    · simp [countBelow, hp, update_apply_fin, hon, countBelow_update_le en p hp false p le_rfl]
    · have hne : k ≠ p := by omega
      by_cases hk8 : k < MAX_LIGHTS
      · simp only [countBelow, hk8, dite_true, update_apply_fin, hne, if_false]
        have := ih hlt
        omega
      · simp only [countBelow, hk8, dite_false]
        exact ih hlt

/-- The result of `enableLight` on a status with a free slot. -/
theorem enableLight_spec (s : RenderingStatus M L MP PP T) (light : L)
    (h : s.getNumEnabledLights < MAX_LIGHTS) :
    ∃ p, ∃ hp : p < MAX_LIGHTS,
      s.enableLight light = some
        ({ s with
           lightsCheckNumber := (s.lightsCheckNumber + 1) % 2 ^ 32
           lights := Function.update s.lights ⟨p, hp⟩ light
           lightsEnabled := Function.update s.lightsEnabled ⟨p, hp⟩ true }, p) ∧
      s.lightsEnabled ⟨p, hp⟩ = false ∧
      ∀ q (hq : q < MAX_LIGHTS), q < p → s.lightsEnabled ⟨q, hq⟩ = true := by
  obtain ⟨r, h1, h2, h3⟩ := exists_off_of_countBelow_lt s.lightsEnabled MAX_LIGHTS le_rfl h
  obtain ⟨p, hscan⟩ :=
    scanUntil_isSome s.lightsEnabled false (MAX_LIGHTS + 1) 0 r h2 (by omega) (by omega) h3
  obtain ⟨-, ⟨hp, hoff⟩, hbelow⟩ := scanUntil_some s.lightsEnabled false _ _ _ hscan
  refine ⟨p, hp, ?_, hoff, fun q hq hlt => ?_⟩
  · simp only [enableLight, h, if_true, hscan, hp, dite_true]
  · simpa using hbelow q hq (by omega) hlt

/-- The number of enabled lights never exceeds `MAX_LIGHTS`. -/
theorem getNumEnabledLights_le (s : RenderingStatus M L MP PP T) :
    s.getNumEnabledLights ≤ MAX_LIGHTS :=
  countBelow_le _ _

/-! ### Comparing the lights of two statuses -/

/-- For an admissible index, `getEnabledLight` returns the parameters stored at
the position computed by the two loops. -/
theorem getEnabledLight_eq (s : RenderingStatus M L MP PP T) (index : Nat)
    (h : index < s.getNumEnabledLights) :
    ∃ r, ∃ hr : r < MAX_LIGHTS, enabledLightPos s.lightsEnabled index = some r ∧
      countBelow s.lightsEnabled r = index ∧ s.getEnabledLight index = some (s.lights ⟨r, hr⟩) := by
  obtain ⟨r, h1, h2, h3, -⟩ := enabledLightPos_spec s.lightsEnabled index h
  exact ⟨r, h2, h1, h3, by simp [getEnabledLight, h, h1, lightAt, h2]⟩

/-- The comparison loop of `lightsChanged` on two statuses with the same enabled
slots: it always returns, and it returns true exactly when the two statuses
store different parameters at a position that `getEnabledLight` reads for one
of the remaining indices. -/
theorem lightsChangedLoop_spec [DecidableEq L] (s actual : RenderingStatus M L MP PP T)
    (hen : s.lightsEnabled = actual.lightsEnabled) :
    ∀ remaining i, i + remaining = s.getNumEnabledLights →
      ∃ b, lightsChangedLoop s actual remaining i = some b ∧
        (b = true ↔ ∃ j, i ≤ j ∧ j < s.getNumEnabledLights ∧
          ∃ r, ∃ hr : r < MAX_LIGHTS, enabledLightPos s.lightsEnabled j = some r ∧
            s.lights ⟨r, hr⟩ ≠ actual.lights ⟨r, hr⟩) := by
  intro remaining
  induction remaining with
  | zero =>
    intro i hi
    refine ⟨false, rfl, ?_⟩
    simp only [Bool.false_eq_true, false_iff, not_exists, not_and]
    intro j h1 h2
    omega
  | succ k ih =>
    intro i hi
    have hlt : i < s.getNumEnabledLights := by omega
    have hlt2 : i < actual.getNumEnabledLights := by
      simpa [getNumEnabledLights, hen] using hlt
    obtain ⟨r, hr, hpos, -, hget⟩ := getEnabledLight_eq s i hlt
    obtain ⟨r2, hr2, hpos2, -, hget2⟩ := getEnabledLight_eq actual i hlt2
    rw [← hen, hpos] at hpos2
    cases hpos2
    by_cases hdiff : s.lights ⟨r, hr⟩ = actual.lights ⟨r, hr⟩
    · obtain ⟨b, hb, hiff⟩ := ih (i + 1) (by omega)
      refine ⟨b, ?_, ?_⟩
      · simp only [lightsChangedLoop, hget, hget2, hdiff, ne_eq, not_true_eq_false, if_false]
        exact hb
      · rw [hiff]
        constructor
        · rintro ⟨j, h1, h2, h3⟩
          exact ⟨j, by omega, h2, h3⟩
        · rintro ⟨j, h1, h2, q, hq, h3, h4⟩
          refine ⟨j, ?_, h2, q, hq, h3, h4⟩
          rcases Nat.eq_or_lt_of_le h1 with rfl | hlt3
          · rw [hpos] at h3
            cases h3
            exact absurd hdiff h4
          · exact hlt3
    · refine ⟨true, ?_, ?_⟩
      · simp [lightsChangedLoop, hget, hget2, hdiff]
      · simp only [true_iff]
        exact ⟨i, le_rfl, hlt, r, hr, hpos, hdiff⟩

/-- The result of `lightsChanged` when the check numbers differ and the enabled
slots, if they coincide, are contiguous: true exactly when the lights values
differ. -/
theorem lightsChanged_gapFree [DecidableEq L] (s actual : RenderingStatus M L MP PP T)
    (hne : s.lightsCheckNumber ≠ actual.lightsCheckNumber)
    (hgap : s.lightsEnabled = actual.lightsEnabled → GapFree s.lightsEnabled) :
    ∃ b, s.lightsChanged actual = some b ∧ (b = true ↔ ¬ SameLights s actual) := by
  by_cases hen : s.lightsEnabled = actual.lightsEnabled
  · obtain ⟨b, hb, hiff⟩ := lightsChangedLoop_spec s actual hen s.getNumEnabledLights 0 (by omega)
    refine ⟨b, by simp [lightsChanged, hne, hen, hb], ?_⟩
    rw [hiff]
    have hg := hgap hen
    constructor
    · rintro ⟨j, -, hj, r, hr, hpos, hdiff⟩ ⟨-, hsame⟩
      obtain ⟨r2, h1, -, hr2, hon⟩ := enabledLightPos_gapFree s.lightsEnabled hg j hj
      rw [hpos] at h1
      cases h1
      exact hdiff (hsame ⟨r, hr⟩ hon)
    · intro hns
      have hex : ∃ slot : Fin MAX_LIGHTS, s.lightsEnabled slot = true ∧
          s.lights slot ≠ actual.lights slot := by
        by_contra hc
        exact hns ⟨hen, fun slot hon => by
          by_contra hd
          exact hc ⟨slot, hon, hd⟩⟩
      obtain ⟨⟨q, hq⟩, hon, hdiff⟩ := hex
      have hcnt : countBelow s.lightsEnabled q < s.getNumEnabledLights := by
        have h1 := countBelow_succ_on s.lightsEnabled q hq hon
        have h2 := countBelow_mono s.lightsEnabled (show q + 1 ≤ MAX_LIGHTS by omega)
        simp only [getNumEnabledLights]
        omega
      obtain ⟨r, h1, h2, hr, hon2⟩ :=
        enabledLightPos_gapFree s.lightsEnabled hg (countBelow s.lightsEnabled q) hcnt
      have hrq : r = q := slot_unique s.lightsEnabled r q hr hq hon2 hon h2
      subst hrq
      exact ⟨_, Nat.zero_le _, hcnt, r, hr, h1, hdiff⟩
  · refine ⟨true, by simp [lightsChanged, hne, hen], ?_⟩
    simp only [true_iff]
    exact fun h => hen h.1

/-- Every light call that succeeds increments the lights check number. -/
theorem applyLightCall_checkNumber (s s1 : RenderingStatus M L MP PP T) (call : LightCall L)
    (h : s.applyLightCall call = some s1) :
    s1.lightsCheckNumber = (s.lightsCheckNumber + 1) % 2 ^ 32 := by
  cases call with
  | enableLight light =>
    simp only [applyLightCall, enableLight] at h
    split at h
    · split at h
      · simp at h
      · split at h
        · simp only [Option.map_some', Option.some.injEq] at h
          rw [← h]
        · simp at h
    · simp at h
  | disableLight n =>
    simp only [applyLightCall, disableLight] at h
    split at h
    · split at h
      · simp only [Option.some.injEq] at h
        rw [← h]
      · simp at h
    · simp at h

/-- A sequence of light calls that respects the preconditions adds its length
to the lights check number, modulo `2^32`. -/
theorem runLightCalls_checkNumber (calls : List (LightCall L)) :
    ∀ s s1 : RenderingStatus M L MP PP T, s.lightsCheckNumber < 2 ^ 32 →
      s.runLightCalls calls = some s1 →
      s1.lightsCheckNumber = (s.lightsCheckNumber + calls.length) % 2 ^ 32 := by
  induction calls with
  | nil =>
    intro s s1 hs h
    simp only [runLightCalls, Option.some.injEq] at h
    subst h
    simpa using (Nat.mod_eq_of_lt hs).symm
  | cons call rest ih =>
    intro s s1 hs h
    simp only [runLightCalls] at h
    split at h
    · simp at h
    · rename_i s0 hcall
      have h0 := applyLightCall_checkNumber s s0 call hcall
      have h1 := ih s0 s1 (by rw [h0]; exact Nat.mod_lt _ (by norm_num)) h
      rw [h1, h0, List.length_cons]
      omega

theorem runLightCalls_append (l1 l2 : List (LightCall L)) :
    ∀ s : RenderingStatus M L MP PP T,
      s.runLightCalls (l1 ++ l2) = (s.runLightCalls l1).bind (fun s1 => s1.runLightCalls l2) := by
  induction l1 with
  | nil => intro s; rfl
  | cons call rest ih =>
    intro s
    simp only [List.cons_append, runLightCalls]
    cases s.applyLightCall call with
    | none => rfl
    | some s0 => exact ih s0

end RenderingStatus
end Rendering

/-! # Theorems -/

namespace Rendering
open RenderingStatus

/-! ## C1 -/

/-- C1 (as amended). For the groups camera, material, model-view, projection and
texture units: after any finite sequence of the group's setter calls applied to
a status `A` (texture-unit calls in range), the group's Changed predicate
evaluated against the copy of `A` taken beforehand returns true if and only if
the number of calls is not a multiple of `2^32` and the group's final value
differs from its initial value. The values are the camera inverse matrix, the
material enabled flag with the material record, the model-view matrix, the
projection matrix and the sequence of texture unit usages. -/
theorem changed_after_setters_iff {M L MP PP T : Type}
    [DecidableEq M] [DecidableEq MP] [DecidableEq T] [Matrix4x4 M]
    (A : RenderingStatus M L MP PP T)
    (cameraCalls : List M) (materialCalls : List (MaterialCall MP))
    (modelViewCalls : List (ModelViewCall M)) (projectionCalls : List M)
    (textureCalls : List (Nat × T))
    (hA : A.CheckNumbersInRange)
    (hrange : ∀ c ∈ textureCalls, c.1 < A.textureUnitUsages.length) :
    ((A.runCameraCalls cameraCalls).cameraInverseMatrixChanged A = true ↔
      cameraCalls.length % 2 ^ 32 ≠ 0 ∧
        (A.runCameraCalls cameraCalls).cameraInverseMatrix ≠ A.cameraInverseMatrix) ∧
    ((A.runMaterialCalls materialCalls).materialChanged A = true ↔
      materialCalls.length % 2 ^ 32 ≠ 0 ∧
        (A.runMaterialCalls materialCalls).materialValue ≠ A.materialValue) ∧
    ((A.runModelViewCalls modelViewCalls).modelViewMatrixChanged A = true ↔
      modelViewCalls.length % 2 ^ 32 ≠ 0 ∧
        (A.runModelViewCalls modelViewCalls).modelViewMatrix ≠ A.modelViewMatrix) ∧
    ((A.runProjectionCalls projectionCalls).projectionMatrixChanged A = true ↔
      projectionCalls.length % 2 ^ 32 ≠ 0 ∧
        (A.runProjectionCalls projectionCalls).projectionMatrix ≠ A.projectionMatrix) ∧
    (∃ A1, A.runTextureCalls textureCalls = Except.ok A1 ∧
      (A1.textureUnitsChanged A = true ↔
        textureCalls.length % 2 ^ 32 ≠ 0 ∧ A1.textureUnitUsages ≠ A.textureUnitUsages)) := by
  obtain ⟨hcam, -, hmat, hmv, hproj, htex⟩ := hA
  refine ⟨?_, ?_, ?_, ?_, ?_⟩
  · have h := runCameraCalls_checkNumber A cameraCalls hcam
    have hw := wrap_eq_iff A.cameraCheckNumber cameraCalls.length hcam
    simp only [cameraInverseMatrixChanged, h, hw]
    split <;> simp_all
  · have h := runMaterialCalls_checkNumber A materialCalls hmat
    have hw := wrap_eq_iff A.materialCheckNumber materialCalls.length hmat
    simp only [materialChanged, h, hw, materialValue]
    split
    · simp_all
    · simp_all [Prod.ext_iff]
      tauto
  · have h := runModelViewCalls_checkNumber A modelViewCalls hmv
    have hw := wrap_eq_iff A.modelViewMatrixCheckNumber modelViewCalls.length hmv
    simp only [modelViewMatrixChanged, h, hw]
    split <;> simp_all
  · have h := runProjectionCalls_checkNumber A projectionCalls hproj
    have hw := wrap_eq_iff A.projectionMatrixCheckNumber projectionCalls.length hproj
    simp only [projectionMatrixChanged, h, hw]
    split <;> simp_all
  · obtain ⟨A1, h1, h2, -⟩ := runTextureCalls_ok textureCalls A htex hrange
    refine ⟨A1, h1, ?_⟩
    have hw := wrap_eq_iff A.textureUnitUsagesCheckNumber textureCalls.length htex
    simp only [textureUnitsChanged, h2, hw]
    split <;> simp_all

/-- Witness of `changed_after_setters_iff`: one call per group on a fresh status. -/
theorem changed_after_setters_iff_witness :
    fresh.CheckNumbersInRange ∧
    (∀ c ∈ [((3 : Nat), (1 : Nat))], c.1 < fresh.textureUnitUsages.length) ∧
    ((fresh.runProjectionCalls [2]).projectionMatrixChanged fresh = true ↔
      [(2 : ℚ)].length % 2 ^ 32 ≠ 0 ∧
        (fresh.runProjectionCalls [2]).projectionMatrix ≠ fresh.projectionMatrix) :=
  ⟨by decide, by decide,
    (changed_after_setters_iff fresh [2] [MaterialCall.setMaterial 1]
      [ModelViewCall.multModelViewMatrix 2] [2] [(3, 1)] (by decide) (by decide)).2.2.2.1⟩

/-- C1 (counterexample). On a fresh status, `2^32` calls `setProjectionMatrix(2)`
bring the 32-bit check number back to its initial value: the stored matrix
differs from the one of the copy taken beforehand, and `projectionMatrixChanged`
returns false. -/
theorem changed_after_setters_counterexample :
    (fresh.runProjectionCalls (List.replicate (2 ^ 32) 2)).projectionMatrix ≠
        fresh.projectionMatrix ∧
      (fresh.runProjectionCalls (List.replicate (2 ^ 32) 2)).projectionMatrixChanged fresh
        = false := by
  constructor
  · rw [runProjectionCalls_replicate 2 (2 ^ 32) (by norm_num) fresh]
    decide
  · have h := runProjectionCalls_checkNumber fresh (List.replicate (2 ^ 32) (2 : ℚ))
      (by decide)
    rw [List.length_replicate] at h
    unfold projectionMatrixChanged
    rw [if_pos (h.trans (by decide))]

/-! ## C2 -/

theorem relight_length (k : Nat) : (relight k).length = 2 * k := by
  induction k with
  | zero => rfl
  | succ k ih => simp only [relight, List.length_cons, ih]; omega

/-- One round `disableLight(0)`, `enableLight(11)` on a status whose only enabled
slot is slot 0 succeeds, keeps the enabled slots and stores 11 in slot 0. -/
theorem relight_round (s : TestStatus) (hen : s.lightsEnabled = oneLight.lightsEnabled) :
    ∃ s2, s.runLightCalls [LightCall.disableLight 0, LightCall.enableLight 11] = some s2 ∧
      s2.lightsEnabled = oneLight.lightsEnabled ∧ s2.lights 0 = 11 := by
  obtain ⟨sh, ini, c1, cm, cim, c2, li, en, c3, me, ma, c4, mv, pp, c5, pm, c6, tu⟩ := s
  simp only at hen
  subst hen
  refine ⟨_, rfl, ?_, rfl⟩
  funext i
  fin_cases i <;> rfl

theorem runLightCalls_relight (k : Nat) :
    ∀ s : TestStatus, s.lightsEnabled = oneLight.lightsEnabled →
      ∃ s1, s.runLightCalls (relight k) = some s1 ∧
        s1.lightsEnabled = oneLight.lightsEnabled ∧
        ((0 < k ∨ s.lights 0 = 11) → s1.lights 0 = 11) := by
  induction k with
  | zero =>
    intro s hen
    exact ⟨s, rfl, hen, fun h => h.elim (fun h0 => absurd h0 (by omega)) id⟩
  | succ k ih =>
    intro s hen
    obtain ⟨s2, h1, h2, h3⟩ := relight_round s hen
    obtain ⟨s1, g1, g2, g3⟩ := ih s2 h2
    refine ⟨s1, ?_, g2, fun _ => g3 (Or.inr h3)⟩
    have hsplit : relight (k + 1) =
        [LightCall.disableLight 0, LightCall.enableLight 11] ++ relight k := rfl
    rw [hsplit, runLightCalls_append, h1]
    exact g1

/-- C2 (as amended). For a status `A`, its copy taken beforehand and a sequence
of `enableLight` / `disableLight` calls applied to `A` that respects their
preconditions and yields `A1`: provided the enabled slots of `A1`, in case they
are the same as those of `A`, are contiguous, `A1.lightsChanged(A)` returns, and
it returns true if and only if the number of calls is not a multiple of `2^32`
and the lights value of `A1` differs from that of `A`. -/
theorem lightsChanged_after_calls_iff {M L MP PP T : Type} [DecidableEq L]
    (A A1 : RenderingStatus M L MP PP T) (calls : List (LightCall L))
    (hA : A.CheckNumbersInRange)
    (hrun : A.runLightCalls calls = some A1)
    (hgap : A1.lightsEnabled = A.lightsEnabled → GapFree A1.lightsEnabled) :
    ∃ b, A1.lightsChanged A = some b ∧
      (b = true ↔ calls.length % 2 ^ 32 ≠ 0 ∧ ¬ SameLights A1 A) := by
  have hc := runLightCalls_checkNumber calls A A1 hA.2.1 hrun
  have hw := wrap_eq_iff A.lightsCheckNumber calls.length hA.2.1
  by_cases hn : calls.length % 2 ^ 32 = 0
  · have heq : A1.lightsCheckNumber = A.lightsCheckNumber := hc.trans (hw.2 hn)
    refine ⟨false, ?_, ?_⟩
    · unfold lightsChanged
      rw [if_pos heq]
    · constructor
      · intro h
        cases h
      · intro h
        exact absurd hn h.1
  · have hne : A1.lightsCheckNumber ≠ A.lightsCheckNumber := by
      rw [hc]
      exact fun h => hn (hw.1 h)
    obtain ⟨b, hb, hiff⟩ := lightsChanged_gapFree A1 A hne hgap
    exact ⟨b, hb, hiff.trans ⟨fun h => ⟨hn, h⟩, fun h => h.2⟩⟩

/-- Witness of `lightsChanged_after_calls_iff`: one `enableLight` call on a fresh
status. -/
theorem lightsChanged_after_calls_iff_witness :
    fresh.CheckNumbersInRange ∧
    fresh.runLightCalls [LightCall.enableLight 10] = some oneLight ∧
    (oneLight.lightsEnabled = fresh.lightsEnabled → GapFree oneLight.lightsEnabled) ∧
    ∃ b, oneLight.lightsChanged fresh = some b ∧
      (b = true ↔ [LightCall.enableLight 10].length % 2 ^ 32 ≠ 0 ∧
        ¬ SameLights oneLight fresh) :=
  ⟨by decide, rfl, fun _ => by decide,
    lightsChanged_after_calls_iff fresh oneLight [LightCall.enableLight 10] (by decide) rfl
      (fun _ => by decide)⟩

/-- C2 (counterexample). From the status with slot 0 enabled and storing 10,
`2^31` rounds of `disableLight(0)`, `enableLight(11)` respect the preconditions
and are `2^32` calls: the 32-bit check number is back at its initial value.
Slot 0 is enabled and now stores 11, so the lights value differs from that of
the copy taken beforehand, and `lightsChanged` returns false. -/
theorem lightsChanged_after_calls_counterexample :
    ∃ A1, oneLight.runLightCalls (relight (2 ^ 31)) = some A1 ∧
      ¬ SameLights A1 oneLight ∧ A1.lightsChanged oneLight = some false := by
  obtain ⟨A1, h1, h2, h3⟩ := runLightCalls_relight (2 ^ 31) oneLight rfl
  refine ⟨A1, h1, ?_, ?_⟩
  · rintro ⟨-, hsame⟩
    have h11 : A1.lights 0 = 11 := h3 (Or.inl (by norm_num))
    have h10 := hsame 0 (by rw [h2]; decide)
    rw [h11] at h10
    revert h10
    decide
  · have hc := runLightCalls_checkNumber (relight (2 ^ 31)) oneLight A1 (by decide) h1
    rw [relight_length] at hc
    have : A1.lightsCheckNumber = oneLight.lightsCheckNumber := hc.trans (by decide)
    simp [lightsChanged, this]

/-- The defect of `getEnabledLight` seen through `lightsChanged`. From the status
with the slots 0 and 2 enabled (storing 10, 11, 12 in the slots 0, 1, 2), the
four calls `disableLight(2)`, `enableLight(11)`, `enableLight(13)`,
`disableLight(1)` respect the preconditions and end with the same enabled
slots and 13 stored in the enabled slot 2. The lights value differs from the
copy taken beforehand, and `lightsChanged` returns false, because for index 1
both statuses are read at the disabled slot 1. -/
theorem lightsChanged_misses_gap_slot :
    ∃ A1, gapStatus.runLightCalls [LightCall.disableLight 2, LightCall.enableLight 11,
        LightCall.enableLight 13, LightCall.disableLight 1] = some A1 ∧
      A1.lightsEnabled = gapStatus.lightsEnabled ∧
      A1.isLightEnabled 2 = some true ∧ A1.lightAt 2 = some 13 ∧
      gapStatus.lightAt 2 = some 12 ∧
      A1.lightsCheckNumber ≠ gapStatus.lightsCheckNumber ∧
      A1.lightsChanged gapStatus = some false :=
  ⟨_, rfl, by decide, by decide, by decide, by decide, by decide, by decide⟩

/-! ## C3 -/

/-- C3. For every pair of statuses, each of `cameraInverseMatrixChanged`,
`materialChanged`, `modelViewMatrixChanged`, `projectionMatrixChanged` and
`textureUnitsChanged` returns false when the group's check numbers are equal,
and otherwise returns exactly whether the stored values of the group differ. -/
theorem changed_predicates_spec {M L MP PP T : Type}
    [DecidableEq M] [DecidableEq MP] [DecidableEq T]
    (s actual : RenderingStatus M L MP PP T) :
    ((s.cameraCheckNumber = actual.cameraCheckNumber →
        s.cameraInverseMatrixChanged actual = false) ∧
      (s.cameraCheckNumber ≠ actual.cameraCheckNumber →
        (s.cameraInverseMatrixChanged actual = true ↔
          s.cameraInverseMatrix ≠ actual.cameraInverseMatrix))) ∧
    ((s.materialCheckNumber = actual.materialCheckNumber →
        s.materialChanged actual = false) ∧
      (s.materialCheckNumber ≠ actual.materialCheckNumber →
        (s.materialChanged actual = true ↔
          (s.materialEnabled ≠ actual.materialEnabled ∨ s.material ≠ actual.material)))) ∧
    ((s.modelViewMatrixCheckNumber = actual.modelViewMatrixCheckNumber →
        s.modelViewMatrixChanged actual = false) ∧
      (s.modelViewMatrixCheckNumber ≠ actual.modelViewMatrixCheckNumber →
        (s.modelViewMatrixChanged actual = true ↔
          s.modelViewMatrix ≠ actual.modelViewMatrix))) ∧
    ((s.projectionMatrixCheckNumber = actual.projectionMatrixCheckNumber →
        s.projectionMatrixChanged actual = false) ∧
      (s.projectionMatrixCheckNumber ≠ actual.projectionMatrixCheckNumber →
        (s.projectionMatrixChanged actual = true ↔
          s.projectionMatrix ≠ actual.projectionMatrix))) ∧
    ((s.textureUnitUsagesCheckNumber = actual.textureUnitUsagesCheckNumber →
        s.textureUnitsChanged actual = false) ∧
      (s.textureUnitUsagesCheckNumber ≠ actual.textureUnitUsagesCheckNumber →
        (s.textureUnitsChanged actual = true ↔
          s.textureUnitUsages ≠ actual.textureUnitUsages))) := by
  refine ⟨⟨?_, ?_⟩, ⟨?_, ?_⟩, ⟨?_, ?_⟩, ⟨?_, ?_⟩, ⟨?_, ?_⟩⟩ <;> intro h <;>
    simp [cameraInverseMatrixChanged, materialChanged, modelViewMatrixChanged,
      projectionMatrixChanged, textureUnitsChanged, h]

/-- Witness of `changed_predicates_spec`: equal check numbers on a fresh status
and its copy, different ones after one setter call of each group. -/
theorem changed_predicates_spec_witness :
    fresh.projectionMatrixCheckNumber = fresh.projectionMatrixCheckNumber ∧
    fresh.projectionMatrixChanged fresh = false ∧
    (fresh.setProjectionMatrix 2).projectionMatrixCheckNumber ≠
      fresh.projectionMatrixCheckNumber ∧
    ((fresh.setProjectionMatrix 2).projectionMatrixChanged fresh = true ↔
      (fresh.setProjectionMatrix 2).projectionMatrix ≠ fresh.projectionMatrix) :=
  ⟨rfl, (changed_predicates_spec fresh fresh).2.2.2.1.1 rfl, by decide,
    (changed_predicates_spec (fresh.setProjectionMatrix 2) fresh).2.2.2.1.2 (by decide)⟩

/-! ## C4 -/

/-- C4 (as amended). Let `A1` be obtained from a status `A` by a finite sequence
of setter calls of one versioned group (preconditions respected, texture units
in range). (1) The group's check number is equal in `A1` and in the copy of `A`
taken beforehand if and only if the number of calls is a multiple of `2^32`.
(2) With fewer than `2^32` calls, if the group's check number is equal in `A1`
and in the copy of `A`, or in any status `X` synchronised with `A` by
`X.update<Group>(A)` (groups other than lights), then the group's values are
equal in the two statuses. (3) A status synchronised after the calls by
`X.update<Group>(A1)` has the check number of `A1` and the group value of `A1`
(for lights: the check number and the enabled slots). -/
theorem equal_checkNumbers_equal_values {M L MP PP T : Type} [Matrix4x4 M]
    (A X A1 : RenderingStatus M L MP PP T)
    (cameraCalls : List M) (lightCalls : List (LightCall L))
    (materialCalls : List (MaterialCall MP)) (modelViewCalls : List (ModelViewCall M))
    (projectionCalls : List M) (textureCalls : List (Nat × T))
    (hA : A.CheckNumbersInRange)
    (hrun : A.runLightCalls lightCalls = some A1)
    (hrange : ∀ c ∈ textureCalls, c.1 < A.textureUnitUsages.length) :
    (((A.runCameraCalls cameraCalls).cameraCheckNumber = A.cameraCheckNumber ↔
        cameraCalls.length % 2 ^ 32 = 0) ∧
      (cameraCalls.length < 2 ^ 32 →
        (A.runCameraCalls cameraCalls).cameraCheckNumber = A.cameraCheckNumber →
        (A.runCameraCalls cameraCalls).cameraInverseMatrix = A.cameraInverseMatrix ∧
          (A.runCameraCalls cameraCalls).cameraMatrix = A.cameraMatrix) ∧
      (cameraCalls.length < 2 ^ 32 →
        (A.runCameraCalls cameraCalls).cameraCheckNumber =
          (X.updateCameraMatrix A).cameraCheckNumber →
        (A.runCameraCalls cameraCalls).cameraInverseMatrix =
            (X.updateCameraMatrix A).cameraInverseMatrix ∧
          (A.runCameraCalls cameraCalls).cameraMatrix =
            (X.updateCameraMatrix A).cameraMatrix) ∧
      ((X.updateCameraMatrix (A.runCameraCalls cameraCalls)).cameraCheckNumber =
          (A.runCameraCalls cameraCalls).cameraCheckNumber ∧
        (X.updateCameraMatrix (A.runCameraCalls cameraCalls)).cameraInverseMatrix =
          (A.runCameraCalls cameraCalls).cameraInverseMatrix ∧
        (X.updateCameraMatrix (A.runCameraCalls cameraCalls)).cameraMatrix =
          (A.runCameraCalls cameraCalls).cameraMatrix)) ∧
    ((A1.lightsCheckNumber = A.lightsCheckNumber ↔ lightCalls.length % 2 ^ 32 = 0) ∧
      (lightCalls.length < 2 ^ 32 → A1.lightsCheckNumber = A.lightsCheckNumber →
        SameLights A1 A) ∧
      ((X.updateLights A1).lightsCheckNumber = A1.lightsCheckNumber ∧
        (X.updateLights A1).lightsEnabled = A1.lightsEnabled)) ∧
    (((A.runMaterialCalls materialCalls).materialCheckNumber = A.materialCheckNumber ↔
        materialCalls.length % 2 ^ 32 = 0) ∧
      (materialCalls.length < 2 ^ 32 →
        (A.runMaterialCalls materialCalls).materialCheckNumber = A.materialCheckNumber →
        (A.runMaterialCalls materialCalls).materialValue = A.materialValue) ∧
      (materialCalls.length < 2 ^ 32 →
        (A.runMaterialCalls materialCalls).materialCheckNumber =
          (X.updateMaterial A).materialCheckNumber →
        (A.runMaterialCalls materialCalls).materialValue =
          (X.updateMaterial A).materialValue) ∧
      ((X.updateMaterial (A.runMaterialCalls materialCalls)).materialCheckNumber =
          (A.runMaterialCalls materialCalls).materialCheckNumber ∧
        (X.updateMaterial (A.runMaterialCalls materialCalls)).materialValue =
          (A.runMaterialCalls materialCalls).materialValue)) ∧
    (((A.runModelViewCalls modelViewCalls).modelViewMatrixCheckNumber =
          A.modelViewMatrixCheckNumber ↔ modelViewCalls.length % 2 ^ 32 = 0) ∧
      (modelViewCalls.length < 2 ^ 32 →
        (A.runModelViewCalls modelViewCalls).modelViewMatrixCheckNumber =
          A.modelViewMatrixCheckNumber →
        (A.runModelViewCalls modelViewCalls).modelViewMatrix = A.modelViewMatrix) ∧
      (modelViewCalls.length < 2 ^ 32 →
        (A.runModelViewCalls modelViewCalls).modelViewMatrixCheckNumber =
          (X.updateModelViewMatrix A).modelViewMatrixCheckNumber →
        (A.runModelViewCalls modelViewCalls).modelViewMatrix =
          (X.updateModelViewMatrix A).modelViewMatrix) ∧
      ((X.updateModelViewMatrix (A.runModelViewCalls modelViewCalls)).modelViewMatrixCheckNumber
          = (A.runModelViewCalls modelViewCalls).modelViewMatrixCheckNumber ∧
        (X.updateModelViewMatrix (A.runModelViewCalls modelViewCalls)).modelViewMatrix =
          (A.runModelViewCalls modelViewCalls).modelViewMatrix)) ∧
    (((A.runProjectionCalls projectionCalls).projectionMatrixCheckNumber =
          A.projectionMatrixCheckNumber ↔ projectionCalls.length % 2 ^ 32 = 0) ∧
      (projectionCalls.length < 2 ^ 32 →
        (A.runProjectionCalls projectionCalls).projectionMatrixCheckNumber =
          A.projectionMatrixCheckNumber →
        (A.runProjectionCalls projectionCalls).projectionMatrix = A.projectionMatrix) ∧
      (projectionCalls.length < 2 ^ 32 →
        (A.runProjectionCalls projectionCalls).projectionMatrixCheckNumber =
          (X.updateProjectionMatrix A).projectionMatrixCheckNumber →
        (A.runProjectionCalls projectionCalls).projectionMatrix =
          (X.updateProjectionMatrix A).projectionMatrix) ∧
      ((X.updateProjectionMatrix
            (A.runProjectionCalls projectionCalls)).projectionMatrixCheckNumber =
          (A.runProjectionCalls projectionCalls).projectionMatrixCheckNumber ∧
        (X.updateProjectionMatrix (A.runProjectionCalls projectionCalls)).projectionMatrix =
          (A.runProjectionCalls projectionCalls).projectionMatrix)) ∧
    (∃ A2, A.runTextureCalls textureCalls = Except.ok A2 ∧
      (A2.textureUnitUsagesCheckNumber = A.textureUnitUsagesCheckNumber ↔
        textureCalls.length % 2 ^ 32 = 0) ∧
      (textureCalls.length < 2 ^ 32 →
        A2.textureUnitUsagesCheckNumber = A.textureUnitUsagesCheckNumber →
        A2.textureUnitUsages = A.textureUnitUsages) ∧
      (textureCalls.length < 2 ^ 32 →
        A2.textureUnitUsagesCheckNumber = (X.updateTextureUnits A).textureUnitUsagesCheckNumber →
        A2.textureUnitUsages = (X.updateTextureUnits A).textureUnitUsages) ∧
      ((X.updateTextureUnits A2).textureUnitUsagesCheckNumber =
          A2.textureUnitUsagesCheckNumber ∧
        (X.updateTextureUnits A2).textureUnitUsages = A2.textureUnitUsages)) := by
  obtain ⟨h1, h2, h3, h4, h5, h6⟩ := hA
  have key : ∀ n : Nat, n < 2 ^ 32 → n % 2 ^ 32 = 0 → n = 0 := by
    intro n hn h
    omega
  -- camera
  have hcamC := runCameraCalls_checkNumber A cameraCalls h1
  have hcamI : (A.runCameraCalls cameraCalls).cameraCheckNumber = A.cameraCheckNumber ↔
      cameraCalls.length % 2 ^ 32 = 0 := by
    rw [hcamC]
    exact wrap_eq_iff _ _ h1
  have hcamE : cameraCalls.length < 2 ^ 32 →
      (A.runCameraCalls cameraCalls).cameraCheckNumber = A.cameraCheckNumber →
      (A.runCameraCalls cameraCalls).cameraInverseMatrix = A.cameraInverseMatrix ∧
        (A.runCameraCalls cameraCalls).cameraMatrix = A.cameraMatrix := by
    intro hlen h
    rw [List.length_eq_zero.1 (key _ hlen (hcamI.1 h))]
    exact ⟨rfl, rfl⟩
  -- material
  have hmatC := runMaterialCalls_checkNumber A materialCalls h3
  have hmatI : (A.runMaterialCalls materialCalls).materialCheckNumber = A.materialCheckNumber ↔
      materialCalls.length % 2 ^ 32 = 0 := by
    rw [hmatC]
    exact wrap_eq_iff _ _ h3
  have hmatE : materialCalls.length < 2 ^ 32 →
      (A.runMaterialCalls materialCalls).materialCheckNumber = A.materialCheckNumber →
      (A.runMaterialCalls materialCalls).materialValue = A.materialValue := by
    intro hlen h
    rw [List.length_eq_zero.1 (key _ hlen (hmatI.1 h))]
    rfl
  -- model-view
  have hmvC := runModelViewCalls_checkNumber A modelViewCalls h4
  have hmvI : (A.runModelViewCalls modelViewCalls).modelViewMatrixCheckNumber =
      A.modelViewMatrixCheckNumber ↔ modelViewCalls.length % 2 ^ 32 = 0 := by
    rw [hmvC]
    exact wrap_eq_iff _ _ h4
  have hmvE : modelViewCalls.length < 2 ^ 32 →
      (A.runModelViewCalls modelViewCalls).modelViewMatrixCheckNumber =
        A.modelViewMatrixCheckNumber →
      (A.runModelViewCalls modelViewCalls).modelViewMatrix = A.modelViewMatrix := by
    intro hlen h
    rw [List.length_eq_zero.1 (key _ hlen (hmvI.1 h))]
    rfl
  -- projection
  have hprojC := runProjectionCalls_checkNumber A projectionCalls h5
  have hprojI : (A.runProjectionCalls projectionCalls).projectionMatrixCheckNumber =
      A.projectionMatrixCheckNumber ↔ projectionCalls.length % 2 ^ 32 = 0 := by
    rw [hprojC]
    exact wrap_eq_iff _ _ h5
  have hprojE : projectionCalls.length < 2 ^ 32 →
      (A.runProjectionCalls projectionCalls).projectionMatrixCheckNumber =
        A.projectionMatrixCheckNumber →
      (A.runProjectionCalls projectionCalls).projectionMatrix = A.projectionMatrix := by
    intro hlen h
    rw [List.length_eq_zero.1 (key _ hlen (hprojI.1 h))]
    rfl
  -- texture units
  obtain ⟨A2, g1, g2, -⟩ := runTextureCalls_ok textureCalls A h6 hrange
  have htexI : A2.textureUnitUsagesCheckNumber = A.textureUnitUsagesCheckNumber ↔
      textureCalls.length % 2 ^ 32 = 0 := by
    rw [g2]
    exact wrap_eq_iff _ _ h6
  have htexE : textureCalls.length < 2 ^ 32 →
      A2.textureUnitUsagesCheckNumber = A.textureUnitUsagesCheckNumber →
      A2.textureUnitUsages = A.textureUnitUsages := by
    intro hlen h
    have hnil := List.length_eq_zero.1 (key _ hlen (htexI.1 h))
    subst hnil
    simp only [runTextureCalls, Except.ok.injEq] at g1
    rw [← g1]
  -- lights
  have hlightsI : A1.lightsCheckNumber = A.lightsCheckNumber ↔
      lightCalls.length % 2 ^ 32 = 0 := by
    rw [runLightCalls_checkNumber lightCalls A A1 h2 hrun]
    exact wrap_eq_iff _ _ h2
  have hlightsE : lightCalls.length < 2 ^ 32 → A1.lightsCheckNumber = A.lightsCheckNumber →
      SameLights A1 A := by
    intro hlen h
    have hnil := List.length_eq_zero.1 (key _ hlen (hlightsI.1 h))
    subst hnil
    simp only [runLightCalls, Option.some.injEq] at hrun
    subst hrun
    exact ⟨rfl, fun _ _ => rfl⟩
  exact ⟨⟨hcamI, hcamE, hcamE, rfl, rfl, rfl⟩, ⟨hlightsI, hlightsE, rfl, rfl⟩,
    ⟨hmatI, hmatE, hmatE, rfl, rfl⟩, ⟨hmvI, hmvE, hmvE, rfl, rfl⟩,
    ⟨hprojI, hprojE, hprojE, rfl, rfl⟩, A2, g1, htexI, htexE, htexE, rfl, rfl⟩

/-- Witness of `equal_checkNumbers_equal_values`, on a fresh status. After `2^32`
calls `setProjectionMatrix(2)` the projection check number equals that of the
copy taken beforehand (both 0). After one call `setProjectionMatrix(2)`, a
status synchronised by `updateProjectionMatrix` has the same check number (1)
and the same matrix. Without a call the check numbers are equal and so are the
matrices. -/
theorem equal_checkNumbers_equal_values_witness :
    fresh.CheckNumbersInRange ∧
    fresh.runLightCalls [LightCall.enableLight 10] = some oneLight ∧
    (∀ c ∈ [((3 : Nat), (1 : Nat))], c.1 < fresh.textureUnitUsages.length) ∧
    (fresh.runProjectionCalls (List.replicate (2 ^ 32) 2)).projectionMatrixCheckNumber =
      fresh.projectionMatrixCheckNumber ∧
    ((fresh.updateProjectionMatrix (fresh.runProjectionCalls [2])).projectionMatrixCheckNumber =
        (fresh.runProjectionCalls [2]).projectionMatrixCheckNumber ∧
      (fresh.updateProjectionMatrix (fresh.runProjectionCalls [2])).projectionMatrix =
        (fresh.runProjectionCalls [2]).projectionMatrix) ∧
    ([] : List ℚ).length < 2 ^ 32 ∧
    (fresh.runProjectionCalls []).projectionMatrixCheckNumber =
      fresh.projectionMatrixCheckNumber ∧
    (fresh.runProjectionCalls []).projectionMatrix = fresh.projectionMatrix :=
  ⟨by decide, rfl, by decide,
    (equal_checkNumbers_equal_values fresh fresh oneLight [2] [LightCall.enableLight 10]
      [MaterialCall.setMaterial 1] [ModelViewCall.setModelViewMatrix 2]
      (List.replicate (2 ^ 32) 2) [(3, 1)] (by decide) rfl (by decide)).2.2.2.2.1.1.2
      (by rw [List.length_replicate]; decide),
    (equal_checkNumbers_equal_values fresh fresh oneLight [2] [LightCall.enableLight 10]
      [MaterialCall.setMaterial 1] [ModelViewCall.setModelViewMatrix 2] [2] [(3, 1)]
      (by decide) rfl (by decide)).2.2.2.2.1.2.2.2,
    by decide, rfl,
    (equal_checkNumbers_equal_values fresh fresh oneLight [2] [LightCall.enableLight 10]
      [MaterialCall.setMaterial 1] [ModelViewCall.setModelViewMatrix 2] [] [(3, 1)]
      (by decide) rfl (by decide)).2.2.2.2.1.2.1 (by decide) rfl⟩

/-- C4 (counterexample). Two copies of a fresh status that each receive one
`setProjectionMatrix` call, with the matrices 2 and 3: the projection check
numbers are equal (both 1), the projection matrices differ, and
`projectionMatrixChanged` returns false. -/
theorem equal_checkNumbers_counterexample :
    (fresh.setProjectionMatrix 2).projectionMatrixCheckNumber =
      (fresh.setProjectionMatrix 3).projectionMatrixCheckNumber ∧
    (fresh.setProjectionMatrix 2).projectionMatrix ≠
      (fresh.setProjectionMatrix 3).projectionMatrix ∧
    (fresh.setProjectionMatrix 2).projectionMatrixChanged (fresh.setProjectionMatrix 3)
      = false := by
  decide

/-! ## C5 -/

/-- C5. After `this.update<Group>(other)`, for each of the six update methods,
`this.<group>Changed(other)` and `other.<group>Changed(this)` both return false.
The predicates are functions of the two statuses alone, so every repeated
evaluation on unmodified statuses returns the same result. -/
theorem changed_false_after_update {M L MP PP T : Type}
    [DecidableEq M] [DecidableEq L] [DecidableEq MP] [DecidableEq T]
    (s other : RenderingStatus M L MP PP T) :
    ((s.updateCameraMatrix other).cameraInverseMatrixChanged other = false ∧
      other.cameraInverseMatrixChanged (s.updateCameraMatrix other) = false) ∧
    ((s.updateLights other).lightsChanged other = some false ∧
      other.lightsChanged (s.updateLights other) = some false) ∧
    ((s.updateMaterial other).materialChanged other = false ∧
      other.materialChanged (s.updateMaterial other) = false) ∧
    ((s.updateModelViewMatrix other).modelViewMatrixChanged other = false ∧
      other.modelViewMatrixChanged (s.updateModelViewMatrix other) = false) ∧
    ((s.updateProjectionMatrix other).projectionMatrixChanged other = false ∧
      other.projectionMatrixChanged (s.updateProjectionMatrix other) = false) ∧
    ((s.updateTextureUnits other).textureUnitsChanged other = false ∧
      other.textureUnitsChanged (s.updateTextureUnits other) = false) := by
  simp [cameraInverseMatrixChanged, updateCameraMatrix, lightsChanged, updateLights,
    materialChanged, updateMaterial, modelViewMatrixChanged, updateModelViewMatrix,
    projectionMatrixChanged, updateProjectionMatrix, textureUnitsChanged, updateTextureUnits]

/-! ## C6 -/

/-- C6. After `this.update<Group>(other)` for the groups camera, material,
model-view, projection and texture units, the group's check number and every
value of the group readable through the getters are equal in `this` and
`other`. In particular, for a fresh status `A`, a copy `B` and any matrix `m`,
after `A.setProjectionMatrix(m)` and `B.updateProjectionMatrix(A)`,
`B.getProjectionMatrix()` is `m`. -/
theorem update_copies_group {M L MP PP T : Type}
    [Matrix4x4 M] [Inhabited L] [Inhabited MP] [Inhabited PP] [TexUnitUsage T]
    (s other : RenderingStatus M L MP PP T) :
    ((s.updateCameraMatrix other).cameraCheckNumber = other.cameraCheckNumber ∧
      (s.updateCameraMatrix other).getCameraInverseMatrix = other.getCameraInverseMatrix ∧
      (s.updateCameraMatrix other).getCameraMatrix = other.getCameraMatrix) ∧
    ((s.updateMaterial other).materialCheckNumber = other.materialCheckNumber ∧
      (s.updateMaterial other).isMaterialEnabled = other.isMaterialEnabled ∧
      (s.updateMaterial other).getMaterialParameters = other.getMaterialParameters) ∧
    ((s.updateModelViewMatrix other).modelViewMatrixCheckNumber =
        other.modelViewMatrixCheckNumber ∧
      (s.updateModelViewMatrix other).getModelViewMatrix = other.getModelViewMatrix) ∧
    ((s.updateProjectionMatrix other).projectionMatrixCheckNumber =
        other.projectionMatrixCheckNumber ∧
      (s.updateProjectionMatrix other).getProjectionMatrix = other.getProjectionMatrix) ∧
    ((s.updateTextureUnits other).textureUnitUsagesCheckNumber =
        other.textureUnitUsagesCheckNumber ∧
      ∀ unit : Nat, (s.updateTextureUnits other).getTextureUnitUsage unit =
        other.getTextureUnitUsage unit) ∧
    (∀ (maxTextures : Nat) (shader : Option Nat) (m : M),
      ((new maxTextures shader : RenderingStatus M L MP PP T).updateProjectionMatrix
        ((new maxTextures shader : RenderingStatus M L MP PP T).setProjectionMatrix m)
        ).getProjectionMatrix = m) :=
  ⟨⟨rfl, rfl, rfl⟩, ⟨rfl, rfl, rfl⟩, ⟨rfl, rfl⟩, ⟨rfl, rfl⟩, ⟨rfl, fun _ => rfl⟩,
    fun _ _ _ => rfl⟩

/-! ## C7 -/

/-- C7 (as amended). After `this.updateLights(other)` the lights check numbers
are equal, the same slots are enabled and `getNumEnabledLights()` agrees. The
light parameters stored in `this` are those it stored before the call:
`updateLights` copies none, and `updateLightParameter(slot, light)` is the call
that stores parameters in a slot (leaving everything else alone). Hence for
every `i < getNumEnabledLights()` the call `getEnabledLight(i)` reads the same
position in both statuses and returns, for `this`, the parameters `this`
stored there before the call. -/
theorem updateLights_copies_enabled_slots {M L MP PP T : Type}
    (s other : RenderingStatus M L MP PP T) :
    (s.updateLights other).lightsCheckNumber = other.lightsCheckNumber ∧
    (s.updateLights other).lightsEnabled = other.lightsEnabled ∧
    (s.updateLights other).getNumEnabledLights = other.getNumEnabledLights ∧
    (s.updateLights other).lights = s.lights ∧
    (∀ i, i < other.getNumEnabledLights →
      ∃ pos, ∃ h : pos < MAX_LIGHTS,
        (s.updateLights other).getEnabledLight i = some (s.lights ⟨pos, h⟩) ∧
        other.getEnabledLight i = some (other.lights ⟨pos, h⟩)) ∧
    (∀ (slot : Nat) (h : slot < MAX_LIGHTS) (light : L),
      s.updateLightParameter slot light =
        some { s with lights := Function.update s.lights ⟨slot, h⟩ light }) := by
  refine ⟨rfl, rfl, rfl, rfl, ?_, ?_⟩
  · intro i hi
    obtain ⟨r, hr, hpos, -, hget⟩ := getEnabledLight_eq other i hi
    obtain ⟨r2, hr2, hpos2, -, hget2⟩ := getEnabledLight_eq (s.updateLights other) i hi
    have heq : r2 = r := by
      have h1 : enabledLightPos other.lightsEnabled i = some r2 := hpos2
      rw [hpos] at h1
      exact (Option.some.inj h1).symm
    subst heq
    exact ⟨r2, hr, hget2, hget⟩
  · intro slot h light
    simp [updateLightParameter, h]

/-- Witness of `updateLights_copies_enabled_slots`: index 0 of the status with
one light. -/
theorem updateLights_copies_enabled_slots_witness :
    0 < oneLight.getNumEnabledLights ∧
      ∃ pos, ∃ h : pos < MAX_LIGHTS,
        (fresh.updateLights oneLight).getEnabledLight 0 = some (fresh.lights ⟨pos, h⟩) ∧
        oneLight.getEnabledLight 0 = some (oneLight.lights ⟨pos, h⟩) :=
  ⟨by decide, (updateLights_copies_enabled_slots fresh oneLight).2.2.2.2.1 0 (by decide)⟩

/-- C7 (counterexample). With `this` fresh and `other` the status whose slot 0
is enabled and stores 10: after `this.updateLights(other)` slot 0 is enabled in
both, `this` still stores the default parameters 0 in slot 0, and
`getEnabledLight(0)` returns 0 for `this` and 10 for `other`. -/
theorem updateLights_counterexample :
    oneLight.isLightEnabled 0 = some true ∧
    (fresh.updateLights oneLight).isLightEnabled 0 = some true ∧
    (fresh.updateLights oneLight).lightAt 0 = some 0 ∧
    oneLight.lightAt 0 = some 10 ∧
    (fresh.updateLights oneLight).getEnabledLight 0 = some 0 ∧
    oneLight.getEnabledLight 0 = some 10 := by
  decide

/-! ## C8 -/

/-- C8 (evaluation at the failing input). The status with the slots 0 and 2
enabled is reached from a fresh status by four calls that respect the
preconditions. Two lights are enabled, so index 1 is admissible; the second
enabled slot in ascending order is slot 2 (it is enabled and exactly one
enabled slot lies below it), which stores 12. `getEnabledLight(1)` returns 11,
the parameters left in the disabled slot 1. -/
theorem getEnabledLight_skips_wrongly :
    fresh.runLightCalls [LightCall.enableLight 10, LightCall.enableLight 11,
        LightCall.enableLight 12, LightCall.disableLight 1] = some gapStatus ∧
    gapStatus.getNumEnabledLights = 2 ∧
    gapStatus.isLightEnabled 1 = some false ∧
    gapStatus.isLightEnabled 2 = some true ∧
    countBelow gapStatus.lightsEnabled 2 = 1 ∧
    gapStatus.lightAt 1 = some 11 ∧
    gapStatus.lightAt 2 = some 12 ∧
    gapStatus.getEnabledLight 1 = some 11 :=
  ⟨rfl, by decide, by decide, by decide, by decide, by decide, by decide, by decide⟩

/-! ## C9 -/

/-- C9. On a status with fewer than `MAX_LIGHTS` lights enabled, `enableLight`
returns the lowest slot `p` that was disabled before the call; afterwards slot
`p` is enabled and stores the light, the enabled flag and the stored parameters
of every other slot are unchanged, and `getNumEnabledLights()` has increased by
exactly one. On a fresh status eight successive calls return the slots 0..7,
and after `disableLight(3)` the next call returns 3. -/
theorem enableLight_lowest_free_slot {M L MP PP T : Type}
    [Matrix4x4 M] [Inhabited L] [Inhabited MP] [Inhabited PP] [TexUnitUsage T] :
    (∀ (s : RenderingStatus M L MP PP T) (light : L),
      s.getNumEnabledLights < MAX_LIGHTS →
      ∃ s1 p, s.enableLight light = some (s1, p) ∧
      ∃ hp : p < MAX_LIGHTS,
        s.lightsEnabled ⟨p, hp⟩ = false ∧
        (∀ q (hq : q < MAX_LIGHTS), q < p → s.lightsEnabled ⟨q, hq⟩ = true) ∧
        s1.lightsEnabled ⟨p, hp⟩ = true ∧ s1.lights ⟨p, hp⟩ = light ∧
        (∀ q : Fin MAX_LIGHTS, q.val ≠ p →
          s1.lightsEnabled q = s.lightsEnabled q ∧ s1.lights q = s.lights q) ∧
        s1.getNumEnabledLights = s.getNumEnabledLights + 1) ∧
    (∀ (maxTextures : Nat) (shader : Option Nat) (l0 l1 l2 l3 l4 l5 l6 l7 l8 : L),
      (do
        let (s0, p0) ← (new maxTextures shader : RenderingStatus M L MP PP T).enableLight l0
        let (s1, p1) ← s0.enableLight l1
        let (s2, p2) ← s1.enableLight l2
        let (s3, p3) ← s2.enableLight l3
        let (s4, p4) ← s3.enableLight l4
        let (s5, p5) ← s4.enableLight l5
        let (s6, p6) ← s5.enableLight l6
        let (s7, p7) ← s6.enableLight l7
        let s8 ← s7.disableLight 3
        let (_, p8) ← s8.enableLight l8
        pure [p0, p1, p2, p3, p4, p5, p6, p7, p8]) = some [0, 1, 2, 3, 4, 5, 6, 7, 3]) := by
  constructor
  · intro s light h
    obtain ⟨p, hp, hrun, hoff, hbelow⟩ := enableLight_spec s light h
    refine ⟨_, p, hrun, hp, hoff, hbelow, ?_, ?_, ?_, ?_⟩
    · simp
    · simp
    · intro q hq
      have hne : q ≠ ⟨p, hp⟩ := fun hc => hq (by rw [hc])
      simp [Function.update_noteq hne]
    · simpa [getNumEnabledLights] using
        countBelow_update_on s.lightsEnabled p hp hoff MAX_LIGHTS hp
  · intro maxTextures shader l0 l1 l2 l3 l4 l5 l6 l7 l8
    rfl

/-- Witness of `enableLight_lowest_free_slot`: a fresh status has no light enabled. -/
theorem enableLight_lowest_free_slot_witness :
    fresh.getNumEnabledLights < MAX_LIGHTS ∧
      ∃ s1 p, fresh.enableLight 7 = some (s1, p) ∧ s1.getNumEnabledLights =
        fresh.getNumEnabledLights + 1 :=
  ⟨by decide,
    let ⟨s1, p, h1, _, _, _, _, _, _, h2⟩ :=
      enableLight_lowest_free_slot.1 fresh 7 (by decide)
    ⟨s1, p, h1, h2⟩⟩

/-! ## C10 -/

/-- C10. On a status in which slot `n` is enabled, `disableLight(n)` succeeds;
afterwards `isLightEnabled(n)` is false, `getNumEnabledLights()` is exactly one
less than before and the enabled state of every other slot is unchanged; a
following `enableLight` succeeds and brings `getNumEnabledLights()` back to its
value before the disable. -/
theorem disableLight_then_enableLight {M L MP PP T : Type}
    (s : RenderingStatus M L MP PP T) (n : Nat) (light : L)
    (h : s.isLightEnabled n = some true) :
    ∃ s1, s.disableLight n = some s1 ∧
      s1.isLightEnabled n = some false ∧
      s1.getNumEnabledLights + 1 = s.getNumEnabledLights ∧
      (∀ m, m ≠ n → s1.isLightEnabled m = s.isLightEnabled m) ∧
      ∃ s2 p, s1.enableLight light = some (s2, p) ∧
        s2.getNumEnabledLights = s.getNumEnabledLights := by
  have hn : n < MAX_LIGHTS := by
    by_contra hc
    simp [isLightEnabled, hc] at h
  have hon : s.lightsEnabled ⟨n, hn⟩ = true := by
    simpa [isLightEnabled, hn] using h
  have hcount := countBelow_update_off s.lightsEnabled n hn hon MAX_LIGHTS hn
  let s1 : RenderingStatus M L MP PP T :=
    { s with
      lightsCheckNumber := (s.lightsCheckNumber + 1) % 2 ^ 32
      lightsEnabled := Function.update s.lightsEnabled ⟨n, hn⟩ false }
  have hs1 : s1.getNumEnabledLights + 1 = s.getNumEnabledLights := hcount
  have hle := getNumEnabledLights_le s
  obtain ⟨p, hp, hrun, hoff, -⟩ := enableLight_spec s1 light (by omega)
  refine ⟨s1, ?_, ?_, hs1, ?_, _, p, hrun, ?_⟩
  · simp [disableLight, hn, hon, s1]
  · simp [isLightEnabled, hn, s1]
  · intro m hm
    by_cases hm8 : m < MAX_LIGHTS
    · simp [isLightEnabled, hm8, s1, update_apply_fin, hm]
    · simp [isLightEnabled, hm8]
  · have h2 := countBelow_update_on s1.lightsEnabled p hp hoff MAX_LIGHTS hp
    exact h2.trans hcount

/-- Witness of `disableLight_then_enableLight`: slot 0 of `oneLight`. -/
theorem disableLight_then_enableLight_witness :
    oneLight.isLightEnabled 0 = some true ∧
      ∃ s1, oneLight.disableLight 0 = some s1 ∧ s1.isLightEnabled 0 = some false ∧
        s1.getNumEnabledLights + 1 = oneLight.getNumEnabledLights :=
  ⟨by decide,
    let ⟨s1, h1, h2, h3, _⟩ := disableLight_then_enableLight oneLight 0 11 (by decide)
    ⟨s1, h1, h2, h3⟩⟩

/-! ## C11 -/

/-- The vector of texture unit usages of a reachable status has `MAX_TEXTURES`
entries. -/
theorem reachable_length {M L MP PP T : Type}
    [Matrix4x4 M] [Inhabited L] [Inhabited MP] [Inhabited PP] [TexUnitUsage T]
    (maxTextures : Nat) (s : RenderingStatus M L MP PP T) (h : Reachable maxTextures s) :
    s.textureUnitUsages.length = maxTextures := by
  induction h with
  | constructed shader => simp [new]
  | markInitialized _ ih => exact ih
  | setCameraInverseMatrix _ _ ih => exact ih
  | updateCameraMatrix _ _ ih _ => exact ih
  | enableLight light pos _ hcall ih =>
    simp only [enableLight] at hcall
    split at hcall
    · split at hcall
      · cases hcall
      · split at hcall
        · cases hcall
          exact ih
        · cases hcall
    · cases hcall
  | disableLight n _ hcall ih =>
    simp only [disableLight] at hcall
    split at hcall
    · split at hcall
      · cases hcall
        exact ih
      · cases hcall
    · cases hcall
  | updateLights _ _ ih _ => exact ih
  | updateLightParameter n light _ hcall ih =>
    simp only [updateLightParameter] at hcall
    split at hcall
    · cases hcall
      exact ih
    · cases hcall
  | setMaterial _ _ ih => exact ih
  | updateMaterial _ _ ih _ => exact ih
  | disableMaterial _ ih => exact ih
  | setModelViewMatrix _ _ ih => exact ih
  | multModelViewMatrix _ _ ih => exact ih
  | updateModelViewMatrix _ _ ih _ => exact ih
  | setPointParameters _ _ ih => exact ih
  | setProjectionMatrix _ _ ih => exact ih
  | updateProjectionMatrix _ _ ih _ => exact ih
  | setTextureUnitUsage unit use _ hcall ih =>
    simp only [setTextureUnitUsage] at hcall
    split at hcall
    · cases hcall
      simpa using ih
    · cases hcall
  | setTextureUnitUsageThrown unit use _ hcall ih =>
    simp only [setTextureUnitUsage] at hcall
    split at hcall
    · cases hcall
    · cases hcall
      exact ih
  | updateTextureUnits _ _ _ ih => exact ih

/-- C12. In every reachable status the sequence of texture unit usages has
exactly `MAX_TEXTURES` entries, all of them `GENERAL_PURPOSE` in a freshly
constructed status; `getTextureUnitUsage(unit)` and
`setTextureUnitUsage(unit, use)` fail (throw) if and only if
`unit >= MAX_TEXTURES`. -/
theorem textureUnits_fixed_capacity {M L MP PP T : Type}
    [Matrix4x4 M] [Inhabited L] [Inhabited MP] [Inhabited PP] [TexUnitUsage T]
    (maxTextures : Nat) (s : RenderingStatus M L MP PP T) (unit : Nat) (use : T)
    (shader : Option Nat) (h : Reachable maxTextures s) :
    s.textureUnitUsages.length = maxTextures ∧
    (new maxTextures shader : RenderingStatus M L MP PP T).textureUnitUsages =
      List.replicate maxTextures TexUnitUsage.GENERAL_PURPOSE ∧
    (s.getTextureUnitUsage unit = none ↔ maxTextures ≤ unit) ∧
    ((∃ s1, s.setTextureUnitUsage unit use = Except.error s1) ↔ maxTextures ≤ unit) := by
  have hlen := reachable_length maxTextures s h
  refine ⟨hlen, rfl, ?_, ?_⟩
  · simp [getTextureUnitUsage, List.get?_eq_none, hlen]
  · by_cases hu : unit < s.textureUnitUsages.length
    · simp only [setTextureUnitUsage, hu, if_true]
      constructor
      · rintro ⟨s1, h1⟩
        cases h1
      · intro h2
        omega
    · simp only [setTextureUnitUsage, hu, if_false]
      exact ⟨fun _ => by omega, fun _ => ⟨_, rfl⟩⟩

/-- Witness of `textureUnits_fixed_capacity`: a fresh status with eight units. -/
theorem textureUnits_fixed_capacity_witness :
    Reachable 8 fresh ∧ fresh.textureUnitUsages.length = 8 ∧
      (fresh.getTextureUnitUsage 8 = none ↔ 8 ≤ 8) :=
  ⟨Reachable.constructed none,
    (textureUnits_fixed_capacity 8 fresh 8 1 none (Reachable.constructed none)).1,
    (textureUnits_fixed_capacity 8 fresh 8 1 none (Reachable.constructed none)).2.2.1⟩

/-! ## C13 -/

/-- C13. Each setter overwrites the value of its group with the argument:
`setProjectionMatrix`, `setModelViewMatrix`, `setMaterial` (which also enables
the material), `setTextureUnitUsage(u, x)` for `u < MAX_TEXTURES` (which leaves
every other unit alone), and `setCameraInverseMatrix`, after which
`getCameraMatrix()` is the inverse of the argument. -/
theorem setters_store_argument {M L MP PP T : Type}
    [Matrix4x4 M] [Inhabited L] [Inhabited MP] [Inhabited PP] [TexUnitUsage T]
    (maxTextures : Nat) (s : RenderingStatus M L MP PP T) (matrix : M) (mat : MP)
    (u : Nat) (x : T) :
    (s.setProjectionMatrix matrix).getProjectionMatrix = matrix ∧
    (s.setModelViewMatrix matrix).getModelViewMatrix = matrix ∧
    ((s.setMaterial mat).isMaterialEnabled = true ∧
      (s.setMaterial mat).getMaterialParameters = mat) ∧
    (Reachable maxTextures s → u < maxTextures →
      ∃ s1, s.setTextureUnitUsage u x = Except.ok s1 ∧
        s1.getTextureUnitUsage u = some x ∧
        ∀ v, v ≠ u → s1.getTextureUnitUsage v = s.getTextureUnitUsage v) ∧
    ((s.setCameraInverseMatrix matrix).getCameraInverseMatrix = matrix ∧
      (s.setCameraInverseMatrix matrix).getCameraMatrix = Matrix4x4.inverse matrix) := by
  refine ⟨rfl, rfl, ⟨rfl, rfl⟩, ?_, ⟨rfl, rfl⟩⟩
  intro hs hu
  have hlen := reachable_length maxTextures s hs
  have hu2 : u < s.textureUnitUsages.length := by omega
  have hcall : s.setTextureUnitUsage u x = Except.ok
      { s with
        textureUnitUsagesCheckNumber := (s.textureUnitUsagesCheckNumber + 1) % 2 ^ 32
        textureUnitUsages := s.textureUnitUsages.set u x } := by
    simp only [setTextureUnitUsage, hu2, if_true]
  refine ⟨_, hcall, ?_, ?_⟩
  · simp [getTextureUnitUsage, hu2]
  · intro v hv
    simp [getTextureUnitUsage, List.getElem?_set, Ne.symm hv]

/-- Witness of `setters_store_argument`: unit 3 of a fresh status with eight
units. -/
theorem setters_store_argument_witness :
    Reachable 8 fresh ∧ 3 < 8 ∧
      ∃ s1, fresh.setTextureUnitUsage 3 1 = Except.ok s1 ∧ s1.getTextureUnitUsage 3 = some 1 :=
  ⟨Reachable.constructed none, by decide,
    let ⟨s1, h1, h2, _⟩ :=
      (setters_store_argument 8 fresh 2 1 3 1).2.2.2.1 (Reachable.constructed none) (by decide)
    ⟨s1, h1, h2⟩⟩

/-! ## C14 -/

theorem wrap_lt_iff (c : Nat) (hc : c < 2 ^ 32) :
    c < (c + 1) % 2 ^ 32 ↔ c ≠ 2 ^ 32 - 1 := by
  omega

/-- C14 (as amended). Every setter call that mutates a versioned group replaces
the group's check number `c` by `(c + 1) mod 2^32`. The check number after the
call is strictly greater than before if and only if `c` is not `2^32 - 1`; from
`2^32 - 1` it goes to 0. `enableLight` and `disableLight` are taken where they
succeed; `setTextureUnitUsage` increments also when it throws. -/
theorem setter_increments_checkNumber {M L MP PP T : Type} [Matrix4x4 M]
    (s : RenderingStatus M L MP PP T) (matrix : M) (light : L) (n : Nat)
    (mat : MP) (unit : Nat) (use : T)
    (hs : s.CheckNumbersInRange) :
    ((s.setCameraInverseMatrix matrix).cameraCheckNumber = (s.cameraCheckNumber + 1) % 2 ^ 32 ∧
      (s.cameraCheckNumber < (s.setCameraInverseMatrix matrix).cameraCheckNumber ↔
        s.cameraCheckNumber ≠ 2 ^ 32 - 1)) ∧
    (∀ s1 pos, s.enableLight light = some (s1, pos) →
      s1.lightsCheckNumber = (s.lightsCheckNumber + 1) % 2 ^ 32 ∧
      (s.lightsCheckNumber < s1.lightsCheckNumber ↔ s.lightsCheckNumber ≠ 2 ^ 32 - 1)) ∧
    (∀ s1, s.disableLight n = some s1 →
      s1.lightsCheckNumber = (s.lightsCheckNumber + 1) % 2 ^ 32 ∧
      (s.lightsCheckNumber < s1.lightsCheckNumber ↔ s.lightsCheckNumber ≠ 2 ^ 32 - 1)) ∧
    ((s.setMaterial mat).materialCheckNumber = (s.materialCheckNumber + 1) % 2 ^ 32 ∧
      (s.materialCheckNumber < (s.setMaterial mat).materialCheckNumber ↔
        s.materialCheckNumber ≠ 2 ^ 32 - 1)) ∧
    (s.disableMaterial.materialCheckNumber = (s.materialCheckNumber + 1) % 2 ^ 32 ∧
      (s.materialCheckNumber < s.disableMaterial.materialCheckNumber ↔
        s.materialCheckNumber ≠ 2 ^ 32 - 1)) ∧
    ((s.setModelViewMatrix matrix).modelViewMatrixCheckNumber =
        (s.modelViewMatrixCheckNumber + 1) % 2 ^ 32 ∧
      (s.modelViewMatrixCheckNumber < (s.setModelViewMatrix matrix).modelViewMatrixCheckNumber ↔
        s.modelViewMatrixCheckNumber ≠ 2 ^ 32 - 1)) ∧
    ((s.multModelViewMatrix matrix).modelViewMatrixCheckNumber =
        (s.modelViewMatrixCheckNumber + 1) % 2 ^ 32 ∧
      (s.modelViewMatrixCheckNumber < (s.multModelViewMatrix matrix).modelViewMatrixCheckNumber ↔
        s.modelViewMatrixCheckNumber ≠ 2 ^ 32 - 1)) ∧
    ((s.setProjectionMatrix matrix).projectionMatrixCheckNumber =
        (s.projectionMatrixCheckNumber + 1) % 2 ^ 32 ∧
      (s.projectionMatrixCheckNumber < (s.setProjectionMatrix matrix).projectionMatrixCheckNumber ↔
        s.projectionMatrixCheckNumber ≠ 2 ^ 32 - 1)) ∧
    (∀ s1, (s.setTextureUnitUsage unit use = Except.ok s1 ∨
        s.setTextureUnitUsage unit use = Except.error s1) →
      s1.textureUnitUsagesCheckNumber = (s.textureUnitUsagesCheckNumber + 1) % 2 ^ 32 ∧
      (s.textureUnitUsagesCheckNumber < s1.textureUnitUsagesCheckNumber ↔
        s.textureUnitUsagesCheckNumber ≠ 2 ^ 32 - 1)) := by
  obtain ⟨h1, h2, h3, h4, h5, h6⟩ := hs
  refine ⟨⟨rfl, wrap_lt_iff _ h1⟩, ?_, ?_, ⟨rfl, wrap_lt_iff _ h3⟩,
    ⟨rfl, wrap_lt_iff _ h3⟩, ⟨rfl, wrap_lt_iff _ h4⟩, ⟨rfl, wrap_lt_iff _ h4⟩,
    ⟨rfl, wrap_lt_iff _ h5⟩, ?_⟩
  · intro s1 pos henable
    have e1 : s1.lightsCheckNumber = (s.lightsCheckNumber + 1) % 2 ^ 32 :=
      applyLightCall_checkNumber s s1 (LightCall.enableLight light)
        (by simp [applyLightCall, henable])
    refine ⟨e1, ?_⟩
    rw [e1]
    exact wrap_lt_iff _ h2
  · intro s1 hdisable
    have e2 : s1.lightsCheckNumber = (s.lightsCheckNumber + 1) % 2 ^ 32 :=
      applyLightCall_checkNumber s s1 (LightCall.disableLight n) hdisable
    refine ⟨e2, ?_⟩
    rw [e2]
    exact wrap_lt_iff _ h2
  · intro s1 htex
    have e3 : s1.textureUnitUsagesCheckNumber =
        (s.textureUnitUsagesCheckNumber + 1) % 2 ^ 32 := by
      simp only [setTextureUnitUsage] at htex
      split at htex
      · rcases htex with h | h
        · cases h
          rfl
        · cases h
      · rcases htex with h | h
        · cases h
        · cases h
          rfl
    refine ⟨e3, ?_⟩
    rw [e3]
    exact wrap_lt_iff _ h6

/-- Witness of `setter_increments_checkNumber`: the status with one light, on
which `enableLight`, `disableLight(0)` and `setTextureUnitUsage(3, 1)` succeed. -/
theorem setter_increments_checkNumber_witness :
    oneLight.CheckNumbersInRange ∧
    (∃ s1, oneLight.enableLight 11 = some (s1, 1) ∧
      s1.lightsCheckNumber = (oneLight.lightsCheckNumber + 1) % 2 ^ 32) ∧
    (∃ s2, oneLight.disableLight 0 = some s2 ∧
      s2.lightsCheckNumber = (oneLight.lightsCheckNumber + 1) % 2 ^ 32) ∧
    (∃ s3, oneLight.setTextureUnitUsage 3 1 = Except.ok s3 ∧
      s3.textureUnitUsagesCheckNumber = (oneLight.textureUnitUsagesCheckNumber + 1) % 2 ^ 32) :=
  ⟨by decide,
    ⟨_, rfl, ((setter_increments_checkNumber oneLight 2 11 0 1 3 1 (by decide)).2.1
      _ 1 rfl).1⟩,
    ⟨_, rfl, ((setter_increments_checkNumber oneLight 2 11 0 1 3 1 (by decide)).2.2.1
      _ rfl).1⟩,
    ⟨_, rfl, ((setter_increments_checkNumber oneLight 2 11 0 1 3 1 (by decide)).2.2.2.2.2.2.2.2
      _ (Or.inl rfl)).1⟩⟩

/-- C14 (counterexample). After `2^32 - 1` calls `setProjectionMatrix(2)` on a
fresh status the projection check number is `2^32 - 1`; one more call takes it
to 0, which is not greater. -/
theorem setter_increments_checkNumber_counterexample :
    (fresh.runProjectionCalls (List.replicate (2 ^ 32 - 1) 2)).projectionMatrixCheckNumber =
      2 ^ 32 - 1 ∧
    ((fresh.runProjectionCalls (List.replicate (2 ^ 32 - 1) 2)).setProjectionMatrix
      2).projectionMatrixCheckNumber = 0 := by
  have h := runProjectionCalls_checkNumber fresh (List.replicate (2 ^ 32 - 1) (2 : ℚ))
    (by decide)
  rw [List.length_replicate] at h
  have h2 : (fresh.runProjectionCalls (List.replicate (2 ^ 32 - 1) 2)).projectionMatrixCheckNumber
      = 2 ^ 32 - 1 := h.trans (by decide)
  have hstep : ∀ s : TestStatus, (s.setProjectionMatrix 2).projectionMatrixCheckNumber =
      (s.projectionMatrixCheckNumber + 1) % 2 ^ 32 := fun _ => rfl
  refine ⟨h2, ?_⟩
  rw [hstep, h2]
  decide

/-! ## C15 -/

/-- C15. `pointParametersChanged` is true exactly when the two stored point
parameter records differ, whatever the other fields of the two statuses
(check numbers included) are; `setPointParameters(p)` stores `p` and changes no
check number. With `B` fresh and `A` set to a record different from the default
one, `A.pointParametersChanged(B)` is true. -/
theorem pointParameters_compared_by_value {M L MP PP T : Type} [DecidableEq PP]
    [Matrix4x4 M] [Inhabited L] [Inhabited MP] [Inhabited PP] [TexUnitUsage T]
    (A B A1 B1 : RenderingStatus M L MP PP T) (p : PP) (maxTextures : Nat)
    (shader : Option Nat) :
    (A.pointParametersChanged B = true ↔ A.pointParameters ≠ B.pointParameters) ∧
    (A1.pointParameters = A.pointParameters → B1.pointParameters = B.pointParameters →
      A1.pointParametersChanged B1 = A.pointParametersChanged B) ∧
    (A.setPointParameters p).getPointParameters = p ∧
    ((A.setPointParameters p).cameraCheckNumber = A.cameraCheckNumber ∧
      (A.setPointParameters p).lightsCheckNumber = A.lightsCheckNumber ∧
      (A.setPointParameters p).materialCheckNumber = A.materialCheckNumber ∧
      (A.setPointParameters p).modelViewMatrixCheckNumber = A.modelViewMatrixCheckNumber ∧
      (A.setPointParameters p).projectionMatrixCheckNumber = A.projectionMatrixCheckNumber ∧
      (A.setPointParameters p).textureUnitUsagesCheckNumber =
        A.textureUnitUsagesCheckNumber) ∧
    (p ≠ default →
      ((new maxTextures shader : RenderingStatus M L MP PP T).setPointParameters
        p).pointParametersChanged (new maxTextures shader) = true) := by
  refine ⟨by simp [pointParametersChanged], ?_, rfl, ⟨rfl, rfl, rfl, rfl, rfl, rfl⟩, ?_⟩
  · intro hA hB
    simp only [pointParametersChanged, hA, hB]
  · intro hp
    simpa [pointParametersChanged, setPointParameters, new] using hp

/-- Witness of `pointParameters_compared_by_value`: the record 5 against the
default record 0, and a status that differs from `fresh` in a check number
only. -/
theorem pointParameters_compared_by_value_witness :
    (fresh.setProjectionMatrix 2).pointParameters = fresh.pointParameters ∧
    (fresh.setProjectionMatrix 2).pointParametersChanged fresh =
      fresh.pointParametersChanged fresh ∧
    (5 : Nat) ≠ default ∧
    (fresh.setPointParameters 5).pointParametersChanged fresh = true :=
  ⟨rfl,
    (pointParameters_compared_by_value fresh fresh (fresh.setProjectionMatrix 2) fresh 5 8
      none).2.1 rfl rfl,
    by decide,
    (pointParameters_compared_by_value fresh fresh (fresh.setProjectionMatrix 2) fresh 5 8
      none).2.2.2.2 (by decide)⟩

/-! ## C16 -/

/-- C16. Every update method is idempotent: applying `this.update<Group>(other)`
twice in a row yields the same status as applying it once. -/
theorem update_idempotent {M L MP PP T : Type} (s other : RenderingStatus M L MP PP T) :
    (s.updateCameraMatrix other).updateCameraMatrix other = s.updateCameraMatrix other ∧
    (s.updateLights other).updateLights other = s.updateLights other ∧
    (s.updateMaterial other).updateMaterial other = s.updateMaterial other ∧
    (s.updateModelViewMatrix other).updateModelViewMatrix other =
      s.updateModelViewMatrix other ∧
    (s.updateProjectionMatrix other).updateProjectionMatrix other =
      s.updateProjectionMatrix other ∧
    (s.updateTextureUnits other).updateTextureUnits other = s.updateTextureUnits other :=
  ⟨rfl, rfl, rfl, rfl, rfl, rfl⟩

/-! ## C17 -/

/-- A finished scan has read the positions from its start up to its result. -/
theorem scanUntilReads_bound (en : Fin MAX_LIGHTS → Bool) (stop : Bool) :
    ∀ fuel pos q, scanUntil en stop fuel pos = some q →
      ∀ p ∈ scanUntilReads en stop fuel pos, pos ≤ p ∧ p ≤ q := by
  intro fuel
  induction fuel with
  | zero => intro pos q h; simp [scanUntil] at h
  | succ f ih =>
    intro pos q h p hp
    have hle := (scanUntil_some en stop _ _ _ h).1
    simp only [scanUntil] at h
    simp only [scanUntilReads, List.mem_cons] at hp
    split at h
    · rename_i hpos
      simp only [hpos, dite_true] at hp
      split at h
      · rename_i hstop
        simp only [hstop, if_true, List.not_mem_nil, or_false] at hp
        omega
      · rename_i hstop
        simp only [hstop, if_false] at hp
        rcases hp with rfl | hp
        · omega
        · have := ih _ _ h p hp
          omega
    · cases h

/-- The positions read by the outer loop of `getEnabledLight`, when it finishes,
are all in range. -/
theorem advanceEnabledReads_bound (en : Fin MAX_LIGHTS → Bool) :
    ∀ index pos r, advanceEnabled en index pos = some r →
      ∀ p ∈ advanceEnabledReads en index pos, p < MAX_LIGHTS := by
  intro index
  induction index with
  | zero => intro pos r _ p hp; simp [advanceEnabledReads] at hp
  | succ k ih =>
    intro pos r h p hp
    simp only [advanceEnabled] at h
    simp only [advanceEnabledReads, List.mem_append] at hp
    split at h
    · cases h
    · rename_i q hq
      obtain ⟨-, ⟨hq8, -⟩, -⟩ := scanUntil_some en true _ _ _ hq
      rcases hp with hp | hp
      · have := scanUntilReads_bound en true _ _ _ hq p hp
        omega
      · rw [hq] at hp
        exact ih _ _ h p hp

/-- C17. For every status and every index below `getNumEnabledLights()`, the
scan of `getEnabledLight` terminates and returns the record at a position
below `MAX_LIGHTS`; every position it reads from the enabled bits or from the
lights array, that one included, is below `MAX_LIGHTS`. -/
theorem getEnabledLight_reads_in_range {M L MP PP T : Type}
    (s : RenderingStatus M L MP PP T) (index : Nat)
    (h : index < s.getNumEnabledLights) :
    (∃ r, ∃ hr : r < MAX_LIGHTS, s.getEnabledLight index = some (s.lights ⟨r, hr⟩) ∧
      r ∈ getEnabledLightReads s.lightsEnabled index) ∧
    ∀ p ∈ getEnabledLightReads s.lightsEnabled index, p < MAX_LIGHTS := by
  obtain ⟨r, hr, hpos, -, hget⟩ := getEnabledLight_eq s index h
  simp only [enabledLightPos] at hpos
  split at hpos
  · cases hpos
  · rename_i p0 hp0
    obtain ⟨-, ⟨hp8, -⟩, -⟩ := scanUntil_some s.lightsEnabled true _ _ _ hp0
    constructor
    · refine ⟨r, hr, hget, ?_⟩
      simp [getEnabledLightReads, hp0, hpos]
    · intro p hp
      simp only [getEnabledLightReads, hp0, hpos, List.mem_append, List.mem_singleton] at hp
      rcases hp with hp | hp | hp
      · have := scanUntilReads_bound s.lightsEnabled true _ _ _ hp0 p hp
        omega
      · exact advanceEnabledReads_bound s.lightsEnabled _ _ _ hpos p hp
      · omega

/-- Witness of `getEnabledLight_reads_in_range`: index 1 of the status with the
slots 0 and 2 enabled. -/
theorem getEnabledLight_reads_in_range_witness :
    1 < gapStatus.getNumEnabledLights ∧
      ∀ p ∈ getEnabledLightReads gapStatus.lightsEnabled 1, p < MAX_LIGHTS :=
  ⟨by decide, (getEnabledLight_reads_in_range gapStatus 1 (by decide)).2⟩

/-! ## C18 -/

/-- The indices passed to `getEnabledLight` by the loop of `lightsChanged` are
those from the start index on, below the loop bound. -/
theorem lightsChangedLoopCalls_bound {M L MP PP T : Type} [DecidableEq L]
    (s actual : RenderingStatus M L MP PP T) :
    ∀ remaining i, ∀ j ∈ lightsChangedLoopCalls s actual remaining i, j < i + remaining := by
  intro remaining
  induction remaining with
  | zero => intro i j hj; simp [lightsChangedLoopCalls] at hj
  | succ k ih =>
    intro i j hj
    simp only [lightsChangedLoopCalls, List.mem_cons] at hj
    rcases hj with rfl | hj
    · omega
    · split at hj
      · split at hj
        · simp at hj
        · have := ih (i + 1) j hj
          omega
      · simp at hj

/-- C18. `lightsChanged` never violates the precondition of `getEnabledLight`:
every index `i` with which it calls `getEnabledLight(i)` on `this` and on
`actual` is below `getNumEnabledLights()` of both, and the call of
`lightsChanged` returns a result. -/
theorem lightsChanged_respects_precondition {M L MP PP T : Type} [DecidableEq L]
    (s actual : RenderingStatus M L MP PP T) :
    (∀ i ∈ lightsChangedCalls s actual,
      i < s.getNumEnabledLights ∧ i < actual.getNumEnabledLights) ∧
    ∃ b, s.lightsChanged actual = some b := by
  by_cases hc : s.lightsCheckNumber = actual.lightsCheckNumber
  · exact ⟨by simp [lightsChangedCalls, hc], false, by simp [lightsChanged, hc]⟩
  · by_cases hen : s.lightsEnabled = actual.lightsEnabled
    · constructor
      · intro i hi
        simp only [lightsChangedCalls, hc, if_false, hen, ne_eq, not_true_eq_false] at hi
        have hb := lightsChangedLoopCalls_bound s actual _ _ i hi
        have hcount : actual.getNumEnabledLights = s.getNumEnabledLights := by
          simp only [getNumEnabledLights, hen]
        simp only [getNumEnabledLights, hen] at hb ⊢
        omega
      · obtain ⟨b, hb, -⟩ :=
          lightsChangedLoop_spec s actual hen s.getNumEnabledLights 0 (by omega)
        exact ⟨b, by simp [lightsChanged, hc, hen, hb]⟩
    · exact ⟨by simp [lightsChangedCalls, hc, hen], true, by simp [lightsChanged, hc, hen]⟩

/-! ## C19 -/

/-- The result of `getEnabledLight` depends on the lights group only. -/
theorem getEnabledLight_congr {M L MP PP T : Type} (s t : RenderingStatus M L MP PP T)
    (h : SameGroup s t Group.lights) (i : Nat) : s.getEnabledLight i = t.getEnabledLight i := by
  obtain ⟨-, h1, h2⟩ := h
  simp only [getEnabledLight, getNumEnabledLights, lightAt, h1, h2]

theorem lightsChangedLoop_congr {M L MP PP T : Type} [DecidableEq L]
    (s t a b : RenderingStatus M L MP PP T)
    (hst : ∀ i, s.getEnabledLight i = t.getEnabledLight i)
    (hab : ∀ i, a.getEnabledLight i = b.getEnabledLight i) :
    ∀ remaining i, lightsChangedLoop s a remaining i = lightsChangedLoop t b remaining i := by
  intro remaining
  induction remaining with
  | zero => intro i; rfl
  | succ k ih =>
    intro i
    simp only [lightsChangedLoop, hst i, hab i, ih (i + 1)]

/-- The result of `lightsChanged` depends on the lights groups of the two
statuses only. -/
theorem lightsChanged_congr {M L MP PP T : Type} [DecidableEq L]
    (s t a b : RenderingStatus M L MP PP T)
    (hst : SameGroup s t Group.lights) (hab : SameGroup a b Group.lights) :
    s.lightsChanged a = t.lightsChanged b := by
  have h := lightsChangedLoop_congr s t a b (getEnabledLight_congr s t hst)
    (getEnabledLight_congr a b hab)
  obtain ⟨h1, h2, h3⟩ := hst
  obtain ⟨g1, g2, g3⟩ := hab
  simp only [lightsChanged, h1, g1, h3, g3, h, getNumEnabledLights]

/-- The Changed predicate of a group depends on that group of the two statuses
only. -/
theorem groupChanged_congr {M L MP PP T : Type}
    [DecidableEq M] [DecidableEq L] [DecidableEq MP] [DecidableEq PP] [DecidableEq T]
    (s t a b : RenderingStatus M L MP PP T) (g : Group)
    (hst : SameGroup s t g) (hab : SameGroup a b g) :
    groupChanged s a g = groupChanged t b g := by
  cases g with
  | lights => exact lightsChanged_congr s t a b hst hab
  | camera =>
    obtain ⟨h1, h2, h3⟩ := hst
    obtain ⟨g1, g2, g3⟩ := hab
    simp only [groupChanged, cameraInverseMatrixChanged, h1, h3, g1, g3]
  | material =>
    obtain ⟨h1, h2, h3⟩ := hst
    obtain ⟨g1, g2, g3⟩ := hab
    simp only [groupChanged, materialChanged, h1, h2, h3, g1, g2, g3]
  | modelView =>
    obtain ⟨h1, h2⟩ := hst
    obtain ⟨g1, g2⟩ := hab
    simp only [groupChanged, modelViewMatrixChanged, h1, h2, g1, g2]
  | point =>
    simp only [SameGroup] at hst hab
    simp only [groupChanged, pointParametersChanged, hst, hab]
  | projection =>
    obtain ⟨h1, h2⟩ := hst
    obtain ⟨g1, g2⟩ := hab
    simp only [groupChanged, projectionMatrixChanged, h1, h2, g1, g2]
  | textureUnits =>
    obtain ⟨h1, h2⟩ := hst
    obtain ⟨g1, g2⟩ := hab
    simp only [groupChanged, textureUnitsChanged, h1, h2, g1, g2]

theorem sameGroup_refl {M L MP PP T : Type} (s : RenderingStatus M L MP PP T) (g : Group) :
    SameGroup s s g := by
  cases g <;> simp [SameGroup]

/-- C19. Groups are independent. Every setter and every update method of one
group leaves the shader association, the initialized flag and the check number
and fields of every other group unchanged (for the methods that can fail: in
the status they return or leave behind). Hence a call on one group does not
change the result of the Changed predicate of any other group, whichever side
of the comparison the status is on. -/
theorem groups_are_independent {M L MP PP T : Type}
    [DecidableEq M] [DecidableEq L] [DecidableEq MP] [DecidableEq PP] [DecidableEq T]
    [Matrix4x4 M]
    (s actual : RenderingStatus M L MP PP T) (matrix : M) (light : L) (n : Nat) (mat : MP)
    (p : PP) (unit : Nat) (use : T) :
    (OnlyTouches Group.camera s (s.setCameraInverseMatrix matrix) ∧
      OnlyTouches Group.camera s (s.updateCameraMatrix actual)) ∧
    ((∀ s1 pos, s.enableLight light = some (s1, pos) → OnlyTouches Group.lights s s1) ∧
      (∀ s1, s.disableLight n = some s1 → OnlyTouches Group.lights s s1) ∧
      OnlyTouches Group.lights s (s.updateLights actual) ∧
      (∀ s1, s.updateLightParameter n light = some s1 → OnlyTouches Group.lights s s1)) ∧
    (OnlyTouches Group.material s (s.setMaterial mat) ∧
      OnlyTouches Group.material s s.disableMaterial ∧
      OnlyTouches Group.material s (s.updateMaterial actual)) ∧
    (OnlyTouches Group.modelView s (s.setModelViewMatrix matrix) ∧
      OnlyTouches Group.modelView s (s.multModelViewMatrix matrix) ∧
      OnlyTouches Group.modelView s (s.updateModelViewMatrix actual)) ∧
    OnlyTouches Group.point s (s.setPointParameters p) ∧
    (OnlyTouches Group.projection s (s.setProjectionMatrix matrix) ∧
      OnlyTouches Group.projection s (s.updateProjectionMatrix actual)) ∧
    ((∀ s1, (s.setTextureUnitUsage unit use = Except.ok s1 ∨
          s.setTextureUnitUsage unit use = Except.error s1) →
        OnlyTouches Group.textureUnits s s1) ∧
      OnlyTouches Group.textureUnits s (s.updateTextureUnits actual)) ∧
    (∀ (g g1 : Group) (t other : RenderingStatus M L MP PP T),
      OnlyTouches g s t → g1 ≠ g →
        groupChanged t other g1 = groupChanged s other g1 ∧
        groupChanged other t g1 = groupChanged other s g1) := by
  refine ⟨⟨?_, ?_⟩, ⟨?_, ?_, ?_, ?_⟩, ⟨?_, ?_, ?_⟩, ⟨?_, ?_, ?_⟩, ?_, ⟨?_, ?_⟩, ⟨?_, ?_⟩, ?_⟩
  any_goals
    refine ⟨rfl, rfl, fun g1 hne => ?_⟩
    cases g1 <;>
      first
        | exact absurd rfl hne
        | exact ⟨rfl, rfl, rfl⟩
        | exact ⟨rfl, rfl⟩
        | exact rfl
  · intro s1 pos h
    simp only [enableLight] at h
    split at h
    · split at h
      · cases h
      · split at h
        · cases h
          refine ⟨rfl, rfl, fun g1 hne => ?_⟩
          cases g1 <;>
            first
              | exact absurd rfl hne
              | exact ⟨rfl, rfl, rfl⟩
              | exact ⟨rfl, rfl⟩
              | exact rfl
        · cases h
    · cases h
  · intro s1 h
    simp only [disableLight] at h
    split at h
    · split at h
      · cases h
        refine ⟨rfl, rfl, fun g1 hne => ?_⟩
        cases g1 <;>
          first
            | exact absurd rfl hne
            | exact ⟨rfl, rfl, rfl⟩
            | exact ⟨rfl, rfl⟩
            | exact rfl
      · cases h
    · cases h
  · intro s1 h
    simp only [updateLightParameter] at h
    split at h
    · cases h
      refine ⟨rfl, rfl, fun g1 hne => ?_⟩
      cases g1 <;>
        first
          | exact absurd rfl hne
          | exact ⟨rfl, rfl, rfl⟩
          | exact ⟨rfl, rfl⟩
          | exact rfl
    · cases h
  · intro s1 h
    simp only [setTextureUnitUsage] at h
    split at h
    · rcases h with h | h
      · cases h
        refine ⟨rfl, rfl, fun g1 hne => ?_⟩
        cases g1 <;>
          first
            | exact absurd rfl hne
            | exact ⟨rfl, rfl, rfl⟩
            | exact ⟨rfl, rfl⟩
            | exact rfl
      · cases h
    · rcases h with h | h
      · cases h
      · cases h
        refine ⟨rfl, rfl, fun g1 hne => ?_⟩
        cases g1 <;>
          first
            | exact absurd rfl hne
            | exact ⟨rfl, rfl, rfl⟩
            | exact ⟨rfl, rfl⟩
            | exact rfl
  · intro g g1 t other ht hne
    have hsame := ht.2.2 g1 hne
    have hsymm : SameGroup t s g1 := by
      cases g1 <;> simp only [SameGroup] at hsame ⊢
      · exact ⟨hsame.1.symm, hsame.2.1.symm, hsame.2.2.symm⟩
      · exact ⟨hsame.1.symm, hsame.2.1.symm, hsame.2.2.symm⟩
      · exact ⟨hsame.1.symm, hsame.2.1.symm, hsame.2.2.symm⟩
      · exact ⟨hsame.1.symm, hsame.2.symm⟩
      · exact hsame.symm
      · exact ⟨hsame.1.symm, hsame.2.symm⟩
      · exact ⟨hsame.1.symm, hsame.2.symm⟩
    exact ⟨groupChanged_congr t s other other g1 hsymm (sameGroup_refl other g1),
      groupChanged_congr other other t s g1 (sameGroup_refl other g1) hsymm⟩

/-- Witness of `groups_are_independent`: `enableLight`, `disableLight(0)`,
`updateLightParameter(0, 11)` and `setTextureUnitUsage(3, 1)` succeed on the
status with one light, and `setProjectionMatrix` leaves the result of
`lightsChanged` against a fresh status alone. -/
theorem groups_are_independent_witness :
    (∃ s1, oneLight.enableLight 11 = some (s1, 1) ∧ OnlyTouches Group.lights oneLight s1) ∧
    (∃ s1, oneLight.disableLight 0 = some s1 ∧ OnlyTouches Group.lights oneLight s1) ∧
    (∃ s1, oneLight.updateLightParameter 0 11 = some s1 ∧
      OnlyTouches Group.lights oneLight s1) ∧
    (∃ s1, oneLight.setTextureUnitUsage 3 1 = Except.ok s1 ∧
      OnlyTouches Group.textureUnits oneLight s1) ∧
    Group.lights ≠ Group.projection ∧
    groupChanged (oneLight.setProjectionMatrix 2) fresh Group.lights =
      groupChanged oneLight fresh Group.lights :=
  ⟨⟨_, rfl, (groups_are_independent oneLight fresh 2 11 0 1 5 3 1).2.1.1 _ 1 rfl⟩,
    ⟨_, rfl, (groups_are_independent oneLight fresh 2 11 0 1 5 3 1).2.1.2.1 _ rfl⟩,
    ⟨_, rfl, (groups_are_independent oneLight fresh 2 11 0 1 5 3 1).2.1.2.2.2 _ rfl⟩,
    ⟨_, rfl, (groups_are_independent oneLight fresh 2 11 0 1 5 3 1).2.2.2.2.2.2.1.1 _
      (Or.inl rfl)⟩,
    by decide,
    ((groups_are_independent oneLight fresh 2 11 0 1 5 3 1).2.2.2.2.2.2.2
      Group.projection Group.lights (oneLight.setProjectionMatrix 2) fresh
      (groups_are_independent oneLight fresh 2 11 0 1 5 3 1).2.2.2.2.2.1.1 (by decide)).1⟩

/-! ## C20 -/

/-- C20 (as amended). For a reachable status and `unit >= MAX_TEXTURES`, the call
`setTextureUnitUsage(unit, use)` throws and leaves behind the status in which
`textureUnitUsagesCheckNumber` has been incremented (modulo `2^32`) and
everything else, the usage sequence included, is unchanged. -/
theorem setTextureUnitUsage_failure_effect {M L MP PP T : Type}
    [Matrix4x4 M] [Inhabited L] [Inhabited MP] [Inhabited PP] [TexUnitUsage T]
    (maxTextures : Nat) (s : RenderingStatus M L MP PP T) (unit : Nat) (use : T)
    (hs : Reachable maxTextures s) (hu : maxTextures ≤ unit) :
    s.setTextureUnitUsage unit use = Except.error
      { s with
        textureUnitUsagesCheckNumber := (s.textureUnitUsagesCheckNumber + 1) % 2 ^ 32 } := by
  have hlen := reachable_length maxTextures s hs
  have hnot : ¬ unit < s.textureUnitUsages.length := by omega
  simp only [setTextureUnitUsage, hnot, if_false]

/-- Witness of `setTextureUnitUsage_failure_effect`: unit 8 of a fresh status
with eight units. -/
theorem setTextureUnitUsage_failure_effect_witness :
    Reachable 8 fresh ∧ 8 ≤ 8 ∧
    fresh.setTextureUnitUsage 8 1 = Except.error
      { fresh with
        textureUnitUsagesCheckNumber := (fresh.textureUnitUsagesCheckNumber + 1) % 2 ^ 32 } :=
  ⟨Reachable.constructed none, le_rfl,
    setTextureUnitUsage_failure_effect 8 fresh 8 1 (Reachable.constructed none) le_rfl⟩

/-- C20 (counterexample). On a fresh status with eight texture units the call
`setTextureUnitUsage(8, 1)` throws, and the status it leaves behind has the
texture check number 1 instead of 0. -/
theorem setTextureUnitUsage_failure_counterexample :
    ∃ s1, fresh.setTextureUnitUsage 8 1 = Except.error s1 ∧
      s1.textureUnitUsagesCheckNumber = 1 ∧ fresh.textureUnitUsagesCheckNumber = 0 ∧
      s1 ≠ fresh :=
  ⟨_, rfl, rfl, rfl, fun h => absurd (congrArg textureUnitUsagesCheckNumber h) (by decide)⟩

namespace TextureUtils

/-! ## C21 -/

/-- The row loop on data that fits into 32-bit offsets: it finishes, and row `r`
of the local data holds row `(bHeight - 1 - r) mod 2^16` of the bitmap. -/
theorem flipRows_spec (bHeight rowSize : Nat) (pixels : Buffer)
    (hsmall : bHeight * rowSize < 2 ^ 32) (hpix : bHeight * rowSize ≤ pixels.size) :
    ∀ remaining row (localData : Buffer), row + remaining = bHeight →
      bHeight * rowSize ≤ localData.size →
      ∃ out, flipRows bHeight rowSize pixels remaining row localData = some out ∧
        out.size = localData.size ∧
        (∀ r j, row ≤ r → r < bHeight → j < rowSize →
          out.cell (r * rowSize + j) =
            pixels.cell ((bHeight - 1 - r) % 2 ^ 16 * rowSize + j)) ∧
        (∀ i, i < row * rowSize → out.cell i = localData.cell i) := by
  intro remaining
  induction remaining with
  | zero =>
    intro row localData hrow _
    exact ⟨localData, rfl, rfl, fun r j h1 h2 _ => absurd h2 (by omega), fun _ _ => rfl⟩
  | succ k ih =>
    intro row localData hrow hsize
    have hrowlt : row < bHeight := by omega
    have h1 : (row + 1) * rowSize ≤ bHeight * rowSize := Nat.mul_le_mul_right _ hrowlt
    have h2 : (row + 1) * rowSize = row * rowSize + rowSize := Nat.succ_mul _ _
    have hrev : (bHeight - 1 - row) % 2 ^ 16 < bHeight :=
      lt_of_le_of_lt (Nat.mod_le _ _) (by omega)
    have h3 : ((bHeight - 1 - row) % 2 ^ 16 + 1) * rowSize ≤ bHeight * rowSize :=
      Nat.mul_le_mul_right _ hrev
    have h4 : ((bHeight - 1 - row) % 2 ^ 16 + 1) * rowSize =
        (bHeight - 1 - row) % 2 ^ 16 * rowSize + rowSize := Nat.succ_mul _ _
    have hoff : row * rowSize % 2 ^ 32 = row * rowSize := Nat.mod_eq_of_lt (by omega)
    have hroff : (bHeight - 1 - row) % 2 ^ 16 * rowSize % 2 ^ 32 =
        (bHeight - 1 - row) % 2 ^ 16 * rowSize := Nat.mod_eq_of_lt (by omega)
    have hcond : (bHeight - 1 - row) % 2 ^ 16 * rowSize + rowSize ≤ pixels.size ∧
        row * rowSize + rowSize ≤ localData.size := ⟨by omega, by omega⟩
    obtain ⟨out, hout, hsz, hrows, hkeep⟩ := ih (row + 1)
      { size := localData.size
        cell := fun i =>
          if row * rowSize ≤ i ∧ i < row * rowSize + rowSize then
            pixels.cell ((bHeight - 1 - row) % 2 ^ 16 * rowSize + (i - row * rowSize))
          else localData.cell i }
      (by omega) hsize
    refine ⟨out, ?_, hsz, ?_, ?_⟩
    · simp only [flipRows, hoff, hroff, copyBytes, hcond, and_self, if_true]
      exact hout
    · intro r j hr1 hr2 hj
      rcases Nat.eq_or_lt_of_le hr1 with rfl | hlt
      · rw [hkeep _ (by omega)]
        simp only
        rw [if_pos ⟨by omega, by omega⟩]
        congr 2
        omega
      · exact hrows r j hlt hr2 hj
    · intro i hi
      rw [hkeep i (by omega)]
      simp only
      rw [if_neg (by omega)]

/-- What `createTextureFromBitmap` returns for a bitmap it accepts, when the
data fit into 32-bit offsets and the local data are as large as the bitmap
data: a texture in which row `r` holds row `(height - 1 - r) mod 2^16` of the
bitmap. -/
theorem createTextureFromBitmap_rows (libGL : Bool) (defaultFormat : Format)
    (allocateLocalData : Format → Buffer) (bitmap : Bitmap) (type : TextureType)
    (numLayers : Nat) (clampToEdge : Bool)
    (hvalue : bitmap.valueType ≠ TypeConstant.other)
    (hlayers : ¬ (numLayers = 0 ∨ numLayers > bitmap.height ∨ bitmap.height % numLayers ≠ 0))
    (htype : type ≠ TextureType.invalid)
    (hformat : bitmapGLFormat libGL bitmap.pixelFormat ≠ none)
    (hsmall : bitmap.height * (bitmap.width * bitmap.bytesPerPixel) < 2 ^ 32)
    (hpix : bitmap.height * (bitmap.width * bitmap.bytesPerPixel) ≤ bitmap.data.size)
    (halloc : ∀ format : Format, format.sizeX = bitmap.width →
      format.sizeY = bitmap.height / numLayers → format.numLayers = numLayers →
      bitmap.height * (bitmap.width * bitmap.bytesPerPixel) ≤
        (allocateLocalData format).size) :
    ∃ texture, createTextureFromBitmap libGL defaultFormat allocateLocalData bitmap type
        numLayers clampToEdge = Outcome.ok texture ∧
      ∀ r j, r < bitmap.height → j < bitmap.width * bitmap.bytesPerPixel →
        texture.localData.cell (r * (bitmap.width * bitmap.bytesPerPixel) + j) =
          bitmap.data.cell ((bitmap.height - 1 - r) % 2 ^ 16 *
            (bitmap.width * bitmap.bytesPerPixel) + j) := by
  have hrow : bitmap.width * bitmap.bytesPerPixel % 2 ^ 32 =
      bitmap.width * bitmap.bytesPerPixel := by
    apply Nat.mod_eq_of_lt
    rcases Nat.eq_zero_or_pos bitmap.height with h0 | hpos
    · exfalso
      apply hlayers
      by_cases hn : numLayers = 0
      · exact Or.inl hn
      · exact Or.inr (Or.inl (by omega))
    · calc bitmap.width * bitmap.bytesPerPixel
          ≤ bitmap.height * (bitmap.width * bitmap.bytesPerPixel) :=
            Nat.le_mul_of_pos_left _ hpos
        _ < 2 ^ 32 := hsmall
  obtain ⟨glTextureType, hgt⟩ : ∃ g, textureTypeToGLTextureType type = some g := by
    cases type <;> first | exact ⟨_, rfl⟩ | exact absurd rfl htype
  obtain ⟨⟨glFormat, glInternalFormat⟩, hgf⟩ :
      ∃ g, bitmapGLFormat libGL bitmap.pixelFormat = some g :=
    Option.ne_none_iff_exists'.1 hformat
  have key : ∀ localData : Buffer,
      bitmap.height * (bitmap.width * bitmap.bytesPerPixel) ≤ localData.size →
      ∃ out, flipRows bitmap.height (bitmap.width * bitmap.bytesPerPixel) bitmap.data
          bitmap.height 0 localData = some out ∧
        ∀ r j, r < bitmap.height → j < bitmap.width * bitmap.bytesPerPixel →
          out.cell (r * (bitmap.width * bitmap.bytesPerPixel) + j) =
            bitmap.data.cell ((bitmap.height - 1 - r) % 2 ^ 16 *
              (bitmap.width * bitmap.bytesPerPixel) + j) := by
    intro localData hsize
    obtain ⟨out, hout, -, hrows, -⟩ := flipRows_spec bitmap.height
      (bitmap.width * bitmap.bytesPerPixel) bitmap.data hsmall hpix bitmap.height 0
      localData (by omega) hsize
    exact ⟨out, hout, fun r j hr hj => hrows r j (Nat.zero_le _) hr hj⟩
  have key_none : ∀ format : Format, format.sizeX = bitmap.width →
      format.sizeY = bitmap.height / numLayers → format.numLayers = numLayers →
      flipRows bitmap.height (bitmap.width * bitmap.bytesPerPixel) bitmap.data
        bitmap.height 0 (allocateLocalData format) ≠ none := by
    intro format h1 h2 h3 hnone
    obtain ⟨out, hout, -⟩ := key _ (halloc format h1 h2 h3)
    rw [hnone] at hout
    cases hout
  have key_some : ∀ (format : Format) (localData : Buffer), format.sizeX = bitmap.width →
      format.sizeY = bitmap.height / numLayers → format.numLayers = numLayers →
      flipRows bitmap.height (bitmap.width * bitmap.bytesPerPixel) bitmap.data
        bitmap.height 0 (allocateLocalData format) = some localData →
      ∀ r j, r < bitmap.height → j < bitmap.width * bitmap.bytesPerPixel →
        localData.cell (r * (bitmap.width * bitmap.bytesPerPixel) + j) =
          bitmap.data.cell ((bitmap.height - 1 - r) % 2 ^ 16 *
            (bitmap.width * bitmap.bytesPerPixel) + j) := by
    intro format localData h1 h2 h3 hsome
    obtain ⟨out, hout, hrows⟩ := key _ (halloc format h1 h2 h3)
    rw [hsome] at hout
    cases hout
    exact hrows
  cases hv : bitmap.valueType
  case other => exact absurd hv hvalue
  all_goals
    cases clampToEdge
    all_goals
      simp only [createTextureFromBitmap, hv, hlayers, if_false, hgt, hgf, hrow]
      split
      · rename_i heq
        exact absurd heq (key_none _ (by rfl) (by rfl) (by rfl))
      · rename_i localData heq
        exact ⟨_, rfl, key_some _ _ (by rfl) (by rfl) (by rfl) heq⟩

/-- For an accepted bitmap of height at most `2^16` whose data fit into 32-bit
offsets, `createTextureFromBitmap` flips the rows: row `r` of the texture holds
row `height - 1 - r` of the bitmap. -/
theorem createTextureFromBitmap_flips_small (libGL : Bool) (defaultFormat : Format)
    (allocateLocalData : Format → Buffer) (bitmap : Bitmap) (type : TextureType)
    (numLayers : Nat) (clampToEdge : Bool)
    (hvalue : bitmap.valueType ≠ TypeConstant.other)
    (hlayers : ¬ (numLayers = 0 ∨ numLayers > bitmap.height ∨ bitmap.height % numLayers ≠ 0))
    (htype : type ≠ TextureType.invalid)
    (hformat : bitmapGLFormat libGL bitmap.pixelFormat ≠ none)
    (hheight : bitmap.height ≤ 2 ^ 16)
    (hsmall : bitmap.height * (bitmap.width * bitmap.bytesPerPixel) < 2 ^ 32)
    (hpix : bitmap.height * (bitmap.width * bitmap.bytesPerPixel) ≤ bitmap.data.size)
    (halloc : ∀ format : Format, format.sizeX = bitmap.width →
      format.sizeY = bitmap.height / numLayers → format.numLayers = numLayers →
      bitmap.height * (bitmap.width * bitmap.bytesPerPixel) ≤
        (allocateLocalData format).size) :
    ∃ texture, createTextureFromBitmap libGL defaultFormat allocateLocalData bitmap type
        numLayers clampToEdge = Outcome.ok texture ∧
      ∀ r j, r < bitmap.height → j < bitmap.width * bitmap.bytesPerPixel →
        texture.localData.cell (r * (bitmap.width * bitmap.bytesPerPixel) + j) =
          bitmap.data.cell ((bitmap.height - 1 - r) *
            (bitmap.width * bitmap.bytesPerPixel) + j) := by
  obtain ⟨texture, hcall, hrows⟩ := createTextureFromBitmap_rows libGL defaultFormat
    allocateLocalData bitmap type numLayers clampToEdge hvalue hlayers htype hformat hsmall
    hpix halloc
  refine ⟨texture, hcall, fun r j hr hj => ?_⟩
  have hmod : (bitmap.height - 1 - r) % 2 ^ 16 = bitmap.height - 1 - r :=
    Nat.mod_eq_of_lt (by omega)
  rw [hrows r j hr hj, hmod]

/-- C21 (evaluation at the failing input). For the RGBA bitmap of width 1 and
height 65537 whose last row is white and whose other rows are black,
`createTextureFromBitmap` returns a texture. Its row 0 (bytes 0 to 3) is black:
it holds row 0 of the bitmap, since `reverseRow` is `65536 mod 2^16 = 0`. The
flipped image has the last row of the bitmap (bytes 262144 to 262147, white)
there. -/
theorem createTextureFromBitmap_tall_bitmap :
    ∃ texture, createTextureFromBitmap true testFormat (testAllocate 4) tallBitmap
        TextureType.TEXTURE_2D 1 false = Outcome.ok texture ∧
      (65537 - 1 - 0) % 2 ^ 16 = 0 ∧
      ∀ j, j < 4 →
        texture.localData.cell (0 * 4 + j) = tallBitmap.data.cell (0 * 4 + j) ∧
        texture.localData.cell (0 * 4 + j) = 0 ∧
        tallBitmap.data.cell ((65537 - 1 - 0) * 4 + j) = 255 := by
  obtain ⟨texture, hcall, hrows⟩ := createTextureFromBitmap_rows true testFormat
    (testAllocate 4) tallBitmap TextureType.TEXTURE_2D 1 false (by decide) (by decide)
    (by decide) (by decide) (by decide) (by decide)
    (fun format h1 h2 h3 => by
      simp only [testAllocate, h1, h2, h3]
      decide)
  refine ⟨texture, hcall, by decide, fun j hj => ?_⟩
  have h := hrows 0 j (by decide) hj
  have hw : tallBitmap.width * tallBitmap.bytesPerPixel = 4 := by decide
  have hh : (tallBitmap.height - 1 - 0) % 2 ^ 16 = 0 := by decide
  rw [hw, hh] at h
  have hlow : tallBitmap.data.cell (0 * 4 + j) = 0 := by
    simp only [tallBitmap]
    rw [if_neg (by omega)]
  have hhigh : tallBitmap.data.cell ((65537 - 1 - 0) * 4 + j) = 255 := by
    simp only [tallBitmap]
    rw [if_pos (by omega)]
  exact ⟨h, h.trans hlow, hhigh⟩

/-! ## C22 -/

/-- The left side of the comparison `!width*width*2 == buffer.size()` is 0 for
every width. -/
theorem notWidthTimesWidthTimesTwo_eq_zero (width : Nat) :
    notWidthTimesWidthTimesTwo width = 0 := by
  unfold notWidthTimesWidthTimesTwo
  by_cases h : width = 0
  · subst h
    rfl
  · simp [h]

/-- The test for a non-quadratic image never rejects a file: for a non-empty
`RAW_16BIT_BW` file `createTextureFromRAW` does not return the null pointer. -/
theorem createTextureFromRAW_never_null (RAW_16BIT_BW : Nat) (defaultFormat : Format)
    (allocateFloats : Format → Buffer) (buffer : List Nat) (flip_h : Bool)
    (hne : buffer ≠ []) :
    createTextureFromRAW RAW_16BIT_BW defaultFormat allocateFloats RAW_16BIT_BW buffer flip_h
      ≠ Outcome.null := by
  have hlen : ¬ (0 = buffer.length) := fun h => hne (List.length_eq_zero.1 h.symm)
  have hemp : buffer.isEmpty = false := by
    cases buffer with
    | nil => exact absurd rfl hne
    | cons _ _ => rfl
  simp only [createTextureFromRAW, ne_eq, not_true_eq_false, if_false, hemp,
    notWidthTimesWidthTimesTwo_eq_zero, hlen, Bool.false_eq_true]
  split <;> simp

/-- C22 (evaluation at the failing input). For a `RAW_16BIT_BW` file of three
bytes the width is 1 and the byte count 3 differs from `2 * 1 * 1`;
`createTextureFromRAW` returns a texture of size 1 x 1, not the null pointer. -/
theorem createTextureFromRAW_three_bytes :
    Nat.sqrt ([1, 2, 3].length / 2) = 1 ∧ [1, 2, 3].length ≠ 2 * 1 * 1 ∧
    ∃ texture, createTextureFromRAW 0 testFormat (testAllocate 3) 0 [1, 2, 3] false =
        Outcome.ok texture ∧
      texture.format.sizeX = 1 ∧ texture.format.sizeY = 1 := by
  have hw : Nat.sqrt ([1, 2, 3].length / 2) = 1 := by
    symm
    rw [Nat.eq_sqrt]
    decide
  refine ⟨hw, by decide, ?_⟩
  have hcheck : ¬ (notWidthTimesWidthTimesTwo (1 % 2 ^ 32) = [1, 2, 3].length) := by
    rw [notWidthTimesWidthTimesTwo_eq_zero]
    decide
  simp only [createTextureFromRAW, ne_eq, not_true_eq_false, if_false, List.isEmpty_cons,
    Bool.false_eq_true, hw, hcheck]
  exact ⟨_, rfl, rfl, rfl⟩

end TextureUtils

end Rendering
